import Mathlib

/-!
Verification of the TwinCycle assess/incentive core (src/core/engine.py and
src/core/incentive.py).

Modelling conventions:
* Python floats are modelled as rationals (`ℚ`); Python ints as `ℤ`.
* `round(x, 2)` is modelled as round-half-up to two decimals (CPython rounds
  half to even on the binary value; the two agree except at exact ties).
* CPython's `random.Random` (Mersenne Twister) is external to the repository;
  it is modelled as a deterministic raw draw stream obtained from the seed via
  an arbitrary generator parameter `R : ℕ → ℕ → ℕ` (seed, index ↦ raw draw).
  `randint`/`uniform` are interpreted over that stream; all theorems about
  drawn values hold for every generator, hence for the Mersenne Twister.
* `hashlib.sha256` and `json.dumps(..., sort_keys=True)` are external library
  calls; SHA-256 is implemented bit-faithfully over `ℕ` (mod 2^32), and the
  canonical JSON encoding is reproduced for the fixed payload shape (CPython's
  float `repr` is approximated by a decimal expansion of the rational value).
* The wall-clock timestamp is modelled as an explicit input `now : String`.
-/

namespace TwinCycle

/-! ## Numeric helpers -/

/-- Clamp a numeric value into the interval, as `clamp` in engine.py:
`max(min_value, min(max_value, value))`. -/
def clamp (value minValue maxValue : ℚ) : ℚ :=
  max minValue (min maxValue value)

/-- Integer clamp; the source applies the float `clamp` followed by `int()`,
which on integer inputs is the same as clamping in `ℤ`. -/
def clampZ (value minValue maxValue : ℤ) : ℤ :=
  max minValue (min maxValue value)

/-- Round to two decimal places, modelling Python `round(x, 2)`
(half-up instead of half-even at exact ties). -/
def round2 (x : ℚ) : ℚ :=
  (⌊x * 100 + 1 / 2⌋ : ℚ) / 100

/-! ## Data model (section 3 of the design: InputPayload) -/

structure Device where
  brand : String
  model : String
  age_months : ℤ
  deriving Repr, DecidableEq

structure Signals where
  battery_health_percent : ℤ
  charge_cycles : ℤ
  frame_drop_rate : ℚ
  repair_history_count : ℤ
  deriving Repr, DecidableEq

structure Prefs where
  budget_priority : String
  sustainability_priority : String
  performance_priority : String
  prefers_financing : Bool
  deriving Repr, DecidableEq

structure Payload where
  device : Device
  signals : Signals
  user_preferences : Prefs
  deriving Repr, DecidableEq

/-- The range/enumeration constraints that `_validate_input_payload` in
engine.py imposes on a payload of the expected shape. -/
def ValidPayload (P : Payload) : Prop :=
  P.device.brand ≠ "" ∧ P.device.model ≠ "" ∧ 0 ≤ P.device.age_months ∧
  0 ≤ P.signals.battery_health_percent ∧ P.signals.battery_health_percent ≤ 100 ∧
  0 ≤ P.signals.charge_cycles ∧
  0 ≤ P.signals.frame_drop_rate ∧ P.signals.frame_drop_rate ≤ 1 ∧
  0 ≤ P.signals.repair_history_count ∧
  (P.user_preferences.budget_priority = "low" ∨
    P.user_preferences.budget_priority = "medium" ∨
    P.user_preferences.budget_priority = "high") ∧
  (P.user_preferences.sustainability_priority = "low" ∨
    P.user_preferences.sustainability_priority = "medium" ∨
    P.user_preferences.sustainability_priority = "high") ∧
  (P.user_preferences.performance_priority = "low" ∨
    P.user_preferences.performance_priority = "medium" ∨
    P.user_preferences.performance_priority = "high")

instance decValidPayload (P : Payload) : Decidable (ValidPayload P) := by
  unfold ValidPayload
  infer_instance

/-- Map textual priority level into numeric weight, as `map_priority`.
The source raises `ValueError` for any other string; within the pipelines it
is applied to validated priorities only, where the branches below agree; the
value 0 stands in for the unreachable error case. -/
def mapPriority (priority : String) : ℚ :=
  if priority = "low" then 1
  else if priority = "medium" then 2
  else if priority = "high" then 3
  else 0

/-! ## Deterministic pseudo-random stream

Model of `random.Random(seed)`: a raw draw stream together with a position.
`randint`/`uniform` each consume one raw draw, so draw order is tracked
exactly as generator state is in the source. -/

structure Rng where
  stream : ℕ → ℕ
  pos : ℕ

def Rng.next (r : Rng) : ℕ × Rng :=
  (r.stream r.pos, { stream := r.stream, pos := r.pos + 1 })

/-- Model of `rng.randint(lo, hi)`: an integer in `[lo, hi]` (both inclusive,
as in Python) derived deterministically from the next raw draw. -/
def Rng.randint (r : Rng) (lo hi : ℤ) : ℤ × Rng :=
  let (n, r2) := r.next
  (lo + (n : ℤ) % (hi - lo + 1), r2)

/-- Model of `rng.uniform(lo, hi)`: `lo + (hi - lo) * f` with `f ∈ [0, 1)`
derived deterministically from the next raw draw. -/
def Rng.uniform (r : Rng) (lo hi : ℚ) : ℚ × Rng :=
  let (n, r2) := r.next
  (lo + (hi - lo) * (((n % 1000 : ℕ) : ℚ) / 1000), r2)

/-- Construct the generator for a seed from a raw-draw family `R`
(the model of `random.Random(seed)`). -/
def mkRng (R : ℕ → ℕ → ℕ) (seed : ℕ) : Rng :=
  { stream := R seed, pos := 0 }

/-- A concrete stand-in raw-draw family (a splitmix-style mix), used to
instantiate witnesses; every theorem about drawn values is proved for an
arbitrary family. -/
def defaultGen (seed idx : ℕ) : ℕ :=
  let s := (seed + idx * 2654435761 + 1442695040888963407) % 18446744073709551616
  (s * 6364136223846793005 + 1013904223) % 18446744073709551616

/-! ## RUL estimate (`_compute_rul_and_confidence` in engine.py) -/

structure RulEstimate where
  rul_months_min : ℤ
  rul_months_max : ℤ
  confidence : String
  confidence_score : ℚ
  key_drivers : List String
  deriving Repr, DecidableEq

/-- Enumeration order of the contribution dict in the source:
battery, cycles, frame drop, repairs, age. -/
def driverName (i : ℕ) : String :=
  if i = 0 then "battery_health_percent"
  else if i = 1 then "charge_cycles"
  else if i = 2 then "frame_drop_rate"
  else if i = 3 then "repair_history_count"
  else "device_age_months"

/-- The five contribution ratios, tagged with their enumeration index. -/
def contribList (P : Payload) : List (ℕ × ℚ) :=
  [(0, (100 - P.signals.battery_health_percent) / 60),
   (1, P.signals.charge_cycles / 1200),
   (2, P.signals.frame_drop_rate / (2 / 5)),
   (3, P.signals.repair_history_count / 4),
   (4, P.device.age_months / 48)]

/-- Order produced by Python's stable `sorted(..., key=value, reverse=True)`:
larger contribution first, and among equal contributions the smaller
enumeration index first. On entries with distinct indices this is a total
order, so the stable sort result is the unique `driverLe`-sorted
permutation. -/
def driverLe (a b : ℕ × ℚ) : Prop :=
  b.2 < a.2 ∨ (a.2 = b.2 ∧ a.1 ≤ b.1)

instance decDriverLe : DecidableRel driverLe := by
  unfold driverLe
  infer_instance

instance totalDriverLe : IsTotal (ℕ × ℚ) driverLe := by
  constructor
  intro a b
  unfold driverLe
  rcases lt_trichotomy a.2 b.2 with h | h | h
  · exact Or.inr (Or.inl h)
  · rcases Nat.le_total a.1 b.1 with h2 | h2
    · exact Or.inl (Or.inr ⟨h, h2⟩)
    · exact Or.inr (Or.inr ⟨h.symm, h2⟩)
  · exact Or.inl (Or.inl h)

instance transDriverLe : IsTrans (ℕ × ℚ) driverLe := by
  constructor
  intro a b c hab hbc
  unfold driverLe at hab hbc ⊢
  rcases hab with h1 | ⟨h1, h1i⟩ <;> rcases hbc with h2 | ⟨h2, h2i⟩
  · exact Or.inl (lt_trans h2 h1)
  · exact Or.inl (h2 ▸ h1)
  · exact Or.inl (by rw [h1]; exact h2)
  · exact Or.inr ⟨h1.trans h2, h1i.trans h2i⟩

/-- Sorted contribution list: `sorted(contributions.items(), key=value,
reverse=True)` in the source. -/
def sortedContribs (P : Payload) : List (ℕ × ℚ) :=
  List.insertionSort driverLe (contribList P)

/-- The `key_drivers` list: names of the top three sorted contributions. -/
def keyDrivers (P : Payload) : List String :=
  ((sortedContribs P).take 3).map (fun p => driverName p.1)

/-- Direct translation of `_compute_rul_and_confidence`; returns the
`rul_estimate` record together with the unrounded confidence score and the
base RUL point, as the Python function does. -/
def computeRulAndConfidence (P : Payload) : RulEstimate × ℚ × ℚ :=
  let age_months : ℚ := P.device.age_months
  let battery : ℚ := P.signals.battery_health_percent
  let charge_cycles : ℚ := P.signals.charge_cycles
  let frame_drop_rate : ℚ := P.signals.frame_drop_rate
  let repairs : ℚ := P.signals.repair_history_count
  let rul_point :=
    clamp (24 - clamp (age_months / 6) 0 12 - (100 - battery) / 10
      - charge_cycles / 400 - frame_drop_rate * 10 - repairs * (3 / 2)) 1 30
  let risk := age_months / 48 + (100 - battery) / 60 + charge_cycles / 1200
    + frame_drop_rate / (2 / 5) + repairs / 4
  let confidence_score := clamp (1 - risk / 5) (35 / 100) (9 / 10)
  let confidence :=
    if 8 / 10 ≤ confidence_score then "high"
    else if 6 / 10 ≤ confidence_score then "medium-high"
    else "medium"
  let margin := 2 + (1 - confidence_score) * 4
  let rul_min : ℤ := max 1 ⌊rul_point - margin⌋
  let rul_max : ℤ := min 30 ⌈rul_point + margin⌉
  ({ rul_months_min := rul_min
     rul_months_max := rul_max
     confidence := confidence
     confidence_score := round2 confidence_score
     key_drivers := keyDrivers P },
   confidence_score, rul_point)

/-! ## Option scoring (`_compute_option_scores` in engine.py) -/

structure OptionScores where
  cost_score : ℚ
  sustainability_score : ℚ
  performance_score : ℚ
  overall_score : ℚ
  deriving Repr, DecidableEq

structure AllScores where
  repair_battery : OptionScores
  refurb_buy : OptionScores
  tradein_new : OptionScores
  deriving Repr, DecidableEq

/-- Total preference weight before normalization (`total_weight`). -/
def totalWeight (P : Payload) : ℚ :=
  mapPriority P.user_preferences.budget_priority
    + mapPriority P.user_preferences.sustainability_priority
    + mapPriority P.user_preferences.performance_priority

/-- Direct translation of `_compute_option_scores`. -/
def computeOptionScores (P : Payload) : AllScores :=
  let prefs := P.user_preferences
  let age_months := P.device.age_months
  let battery : ℚ := P.signals.battery_health_percent
  let charge : ℚ := P.signals.charge_cycles
  let frame : ℚ := P.signals.frame_drop_rate
  let repairsZ := P.signals.repair_history_count
  let repairs : ℚ := repairsZ
  let heavy_usage := clamp ((charge / 1200 + frame / (2 / 5) + repairs / 4) / 3) 0 (6 / 5)
  let battery_degradation := clamp ((100 - battery) / 100) 0 1
  let repair_cost :=
    clamp (9 / 10 - ((max (age_months - 24) 0 : ℤ) : ℚ) * (2 / 1000)) (3 / 4) (19 / 20)
  let repair_sust :=
    clamp (9 / 10 - ((max (repairsZ - 1) 0 : ℤ) : ℚ) * (3 / 100)) (3 / 4) (19 / 20)
  let repair_perf :=
    clamp (66 / 100 - heavy_usage * (1 / 10) - battery_degradation * (6 / 100))
      (42 / 100) (74 / 100)
  let refurb_cost := clamp (72 / 100 - heavy_usage * (4 / 100)) (58 / 100) (8 / 10)
  let refurb_sust := clamp (78 / 100 - heavy_usage * (3 / 100)) (65 / 100) (85 / 100)
  let refurb_perf := clamp (81 / 100 + heavy_usage * (7 / 100)) (7 / 10) (92 / 100)
  let tradein_cost :=
    clamp (48 / 100 + (if prefs.prefers_financing then 1 / 10 else 0)
      - heavy_usage * (2 / 100)) (35 / 100) (68 / 100)
  let tradein_sust := clamp (58 / 100 - heavy_usage * (4 / 100)) (4 / 10) (7 / 10)
  let tradein_perf := clamp (93 / 100 + heavy_usage * (3 / 100)) (9 / 10) (99 / 100)
  let wCost := mapPriority prefs.budget_priority / totalWeight P
  let wSust := mapPriority prefs.sustainability_priority / totalWeight P
  let wPerf := mapPriority prefs.performance_priority / totalWeight P
  let overall := fun (cost sust perf : ℚ) =>
    round2 (cost * wCost + sust * wSust + perf * wPerf)
  { repair_battery :=
      { cost_score := round2 repair_cost
        sustainability_score := round2 repair_sust
        performance_score := round2 repair_perf
        overall_score := overall repair_cost repair_sust repair_perf }
    refurb_buy :=
      { cost_score := round2 refurb_cost
        sustainability_score := round2 refurb_sust
        performance_score := round2 refurb_perf
        overall_score := overall refurb_cost refurb_sust refurb_perf }
    tradein_new :=
      { cost_score := round2 tradein_cost
        sustainability_score := round2 tradein_sust
        performance_score := round2 tradein_perf
        overall_score := overall tradein_cost tradein_sust tradein_perf } }

/-! ## Estimated impacts (`_build_estimated_impacts` in engine.py) -/

structure Impact where
  rul_gain_months_min : ℤ
  rul_gain_months_max : ℤ
  co2_impact_score : ℚ
  ewaste_reduction_score : ℚ
  deriving Repr, DecidableEq

structure AllImpacts where
  repair_battery : Impact
  refurb_buy : Impact
  tradein_new : Impact
  deriving Repr, DecidableEq

/-- Direct translation of `_build_estimated_impacts`, with the fixed draw
order of the source: repair min/offset, refurb min/offset, trade-in
min/offset, then per-option co2 and ewaste uniforms in dict-literal order. -/
def buildEstimatedImpacts (rng : Rng) : AllImpacts × Rng :=
  let (repair_min, r1) := rng.randint 8 12
  let (repair_off, r2) := r1.randint 4 6
  let repair_max := min 16 (repair_min + repair_off)
  let (refurb_min, r3) := r2.randint 16 22
  let (refurb_off, r4) := r3.randint 6 9
  let refurb_max := min 30 (refurb_min + refurb_off)
  let (tradein_min, r5) := r4.randint 28 35
  let (tradein_off, r6) := r5.randint 8 12
  let tradein_max := min 45 (tradein_min + tradein_off)
  let (repair_co2, r7) := r6.uniform (82 / 100) (93 / 100)
  let (repair_ew, r8) := r7.uniform (8 / 10) (92 / 100)
  let (refurb_co2, r9) := r8.uniform (69 / 100) (82 / 100)
  let (refurb_ew, r10) := r9.uniform (62 / 100) (78 / 100)
  let (tradein_co2, r11) := r10.uniform (45 / 100) (62 / 100)
  let (tradein_ew, r12) := r11.uniform (35 / 100) (55 / 100)
  ({ repair_battery :=
       { rul_gain_months_min := repair_min
         rul_gain_months_max := repair_max
         co2_impact_score := round2 repair_co2
         ewaste_reduction_score := round2 repair_ew }
     refurb_buy :=
       { rul_gain_months_min := refurb_min
         rul_gain_months_max := refurb_max
         co2_impact_score := round2 refurb_co2
         ewaste_reduction_score := round2 refurb_ew }
     tradein_new :=
       { rul_gain_months_min := tradein_min
         rul_gain_months_max := tradein_max
         co2_impact_score := round2 tradein_co2
         ewaste_reduction_score := round2 tradein_ew } },
   r12)

/-! ## Winner selection (assess_logic lines 383-388) -/

/-- Strict comparison of Python tuples `(overall_score, -order_index)`. -/
def tupleGt (a b : ℚ × ℤ) : Prop :=
  b.1 < a.1 ∨ (a.1 = b.1 ∧ b.2 < a.2)

instance decTupleGt : DecidableRel tupleGt := by
  unfold tupleGt
  infer_instance

/-- Priority position in `option_order = [refurb_buy, repair_battery,
tradein_new]` (order_index in the source). -/
def orderIndex (optionId : String) : ℤ :=
  if optionId = "refurb_buy" then 0
  else if optionId = "repair_battery" then 1
  else 2

/-- Python `max(scores.items(), key=(overall_score, -order_index))`:
iterate in dict insertion order (repair, refurb, tradein), replacing the
current best only on a strictly greater key, so the first maximal item
wins. -/
def pickRecommended (s : AllScores) : String :=
  let kRepair : ℚ × ℤ := (s.repair_battery.overall_score, -1)
  let kRefurb : ℚ × ℤ := (s.refurb_buy.overall_score, 0)
  let kTradein : ℚ × ℤ := (s.tradein_new.overall_score, -2)
  let best1 := if tupleGt kRefurb kRepair then ("refurb_buy", kRefurb)
    else ("repair_battery", kRepair)
  if tupleGt kTradein best1.2 then "tradein_new" else best1.1

/-- Overall score of a given option id in an `AllScores` record. -/
def overallOf (s : AllScores) (optionId : String) : ℚ :=
  if optionId = "repair_battery" then s.repair_battery.overall_score
  else if optionId = "refurb_buy" then s.refurb_buy.overall_score
  else s.tradein_new.overall_score

/-! ## Recommendation cards (`_build_recommendations` in engine.py) -/

structure CardUi where
  cta_label : String
  badge : String
  icon : String
  deriving Repr, DecidableEq

structure CardTriggers where
  open_incentive_flow : Bool
  deriving Repr, DecidableEq

structure Card where
  option_id : String
  title : String
  tagline : String
  category : String
  why_this : List String
  scores : OptionScores
  estimated_impacts : Impact
  assumptions : List String
  next_steps : List String
  ui : CardUi
  triggers : CardTriggers
  deriving Repr, DecidableEq

/-- Direct translation of `_build_recommendations`. -/
def buildRecommendations (P : Payload) (scores : AllScores) (impacts : AllImpacts)
    (recommendedOptionId : String) : List Card :=
  let prefs := P.user_preferences
  let repair_badge :=
    if prefs.sustainability_priority = "high" then "Lowest CO₂" else "Lowest cost"
  let refurb_badge :=
    if recommendedOptionId = "refurb_buy" then "Top choice" else "Balanced"
  [ { option_id := "repair_battery"
      title := "Batarya Değişimi"
      tagline := "Düşük maliyetle hızlı iyileştirme"
      category := "repair"
      why_this :=
        [ "Başlangıç maliyeti en düşük seçenektir.",
          "Cihazı elde tutarak e-atık etkisini azaltır.",
          "Servis süresi kısa olduğu için geçiş maliyeti düşüktür." ]
      scores := scores.repair_battery
      estimated_impacts := impacts.repair_battery
      assumptions :=
        [ "Yetkili serviste parça stoğu mevcuttur.",
          "Ekran ve anakart tarafında ek arıza yoktur.",
          "Kullanım profili benzer seviyede kalacaktır." ]
      next_steps :=
        [ "Servis randevusu oluştur.",
          "Veri yedeğini al.",
          "Parça ve işçilik teklifini onayla.",
          "Değişim sonrası sağlık raporunu doğrula." ]
      ui := { cta_label := "Servis planla", badge := repair_badge, icon := "battery-charging" }
      triggers := { open_incentive_flow := false } },
    { option_id := "refurb_buy"
      title := "Refurbished Cihaz Al"
      tagline := "Dengeli maliyet ve performans"
      category := "refurb"
      why_this :=
        [ "Yeni cihaza göre daha düşük toplam maliyetle güncel performans sunar.",
          "Yenilenmiş ürün tercihi çevresel etkiyi dengeler.",
          "Orta-uzun vadede stabil kullanım ömrü sağlar." ]
      scores := scores.refurb_buy
      estimated_impacts := impacts.refurb_buy
      assumptions :=
        [ "A kalite yenilenmiş stok mevcuttur.",
          "Minimum 12 ay garanti sağlanır." ]
      next_steps :=
        [ "Uygun model ve kapasiteyi seç.",
          "Garanti ve iade koşullarını doğrula.",
          "Eski cihazdan veri transfer planını oluştur." ]
      ui := { cta_label := "Refurb seçenekleri", badge := refurb_badge, icon := "refresh-ccw" }
      triggers := { open_incentive_flow := false } },
    { option_id := "tradein_new"
      title := "Eskiyi Ver, Yeniye Geç"
      tagline := "En yüksek performans ve en uzun ömür"
      category := "trade_in"
      why_this :=
        [ "Donanım sıçramasıyla en yüksek performans seviyesini sağlar.",
          "Yoğun kullanımda en uzun RUL kazanımını üretir.",
          "Trade-in ve finansman seçenekleri başlangıç maliyetini dengeleyebilir." ]
      scores := scores.tradein_new
      estimated_impacts := impacts.tradein_new
      assumptions :=
        [ "Trade-in kampanyası aktiftir.",
          "Seçilen model stokta mevcuttur.",
          "Finansman uygunluğu kontrolü başarılıdır." ]
      next_steps :=
        [ "Trade-in değerini hesapla.",
          "Teşvik ve finansman seçeneklerini karşılaştır.",
          "Sipariş ve teslimat planını onayla." ]
      ui := { cta_label := "Teşvikleri gör", badge := "Max performance", icon := "rocket" }
      triggers := { open_incentive_flow := true } } ]

/-- Direct translation of `_build_rationale`. -/
def buildRationale (recommendedOptionId : String) (P : Payload)
    (rulEstimate : RulEstimate) : String :=
  let prefs := P.user_preferences
  let signals := P.signals
  if recommendedOptionId = "repair_battery" then
    let rationale :=
      "Bütçe ve sürdürülebilirlik dengesi mevcut cihaz üzerinde onarımı öne çıkarıyor; "
        ++ "batarya sağlığı %" ++ toString signals.battery_health_percent
        ++ " ve RUL aralığı " ++ toString rulEstimate.rul_months_min ++ "-"
        ++ toString rulEstimate.rul_months_max ++ " ay olduğu için "
        ++ "batarya yenileme güçlü bir kısa-orta vade iyileştirme sunuyor."
    if prefs.sustainability_priority = "high" && !prefs.prefers_financing then
      rationale
        ++ " Ayrıca veri silme kaygısı etkisini azaltmak için cihazı elde tutma yaklaşımı "
        ++ "bu senaryoda daha uygun."
    else rationale
  else if recommendedOptionId = "refurb_buy" then
    "Maliyet-performans dengesi bu profilde refurb seçeneğini öne çıkarıyor; "
      ++ "onarıma göre daha güçlü performans artışı sunarken yeni cihaza göre daha kontrollü "
      ++ "toplam maliyet ve çevresel etki sağlıyor."
  else
    "Performans önceliği ve kullanım yoğunluğu trade-in seçeneğini öne çıkarıyor; "
      ++ "yeni nesil cihaza geçiş bu profilde en yüksek performans ve en uzun kullanım "
      ++ "ömrü kazanımını sağlıyor."

/-! ## SHA-256 over natural numbers (model of `hashlib.sha256`)

Machine words are naturals reduced mod `2^32` explicitly. The implementation
follows FIPS 180-4 and was cross-checked against the standard test vector for
the string abc. -/

def M32 : ℕ := 4294967296

/-- Right rotation of a 32-bit word. -/
def rotr (n x : ℕ) : ℕ :=
  ((x >>> n) ||| (x <<< (32 - n))) % M32

/-- Bitwise complement on 32 bits. -/
def bnot32 (x : ℕ) : ℕ :=
  x ^^^ (M32 - 1)

def smallSigma0 (x : ℕ) : ℕ := rotr 7 x ^^^ rotr 18 x ^^^ (x >>> 3)

def smallSigma1 (x : ℕ) : ℕ := rotr 17 x ^^^ rotr 19 x ^^^ (x >>> 10)

def bigSigma0 (x : ℕ) : ℕ := rotr 2 x ^^^ rotr 13 x ^^^ rotr 22 x

def bigSigma1 (x : ℕ) : ℕ := rotr 6 x ^^^ rotr 11 x ^^^ rotr 25 x

def chFun (e f g : ℕ) : ℕ := (e &&& f) ^^^ (bnot32 e &&& g)

def majFun (a b c : ℕ) : ℕ := (a &&& b) ^^^ (a &&& c) ^^^ (b &&& c)

/-- The 64 SHA-256 round constants. -/
def kConst : List ℕ :=
  [1116352408, 1899447441, 3049323471, 3921009573, 961987163, 1508970993,
   2453635748, 2870763221, 3624381080, 310598401, 607225278, 1426881987,
   1925078388, 2162078206, 2614888103, 3248222580, 3835390401, 4022224774,
   264347078, 604807628, 770255983, 1249150122, 1555081692, 1996064986,
   2554220882, 2821834349, 2952996808, 3210313671, 3336571891, 3584528711,
   113926993, 338241895, 666307205, 773529912, 1294757372, 1396182291,
   1695183700, 1986661051, 2177026350, 2456956037, 2730485921, 2820302411,
   3259730800, 3345764771, 3516065817, 3600352804, 4094571909, 275423344,
   430227734, 506948616, 659060556, 883997877, 958139571, 1322822218,
   1537002063, 1747873779, 1955562222, 2024104815, 2227730452, 2361852424,
   2428436474, 2756734187, 3204031479, 3329325298]

structure Hash8 where
  a : ℕ
  b : ℕ
  c : ℕ
  d : ℕ
  e : ℕ
  f : ℕ
  g : ℕ
  h : ℕ
  deriving Repr, DecidableEq

/-- The SHA-256 initial hash value. -/
def initH : Hash8 :=
  { a := 1779033703, b := 3144134277, c := 1013904242, d := 2773480762,
    e := 1359893119, f := 2600822924, g := 528734635, h := 1541459225 }

/-- UTF-8 encoding of one character, as `str.encode` produces it. -/
def encodeChar (c : Char) : List ℕ :=
  let nv := c.toNat
  if nv < 128 then [nv]
  else if nv < 2048 then [192 + nv / 64, 128 + nv % 64]
  else if nv < 65536 then [224 + nv / 4096, 128 + nv / 64 % 64, 128 + nv % 64]
  else [240 + nv / 262144, 128 + nv / 4096 % 64, 128 + nv / 64 % 64, 128 + nv % 64]

def utf8Bytes (s : String) : List ℕ :=
  (s.data.map encodeChar).flatten

/-- Big-endian 8-byte encoding of the bit length. -/
def lenBytes (nv : ℕ) : List ℕ :=
  [nv >>> 56 % 256, nv >>> 48 % 256, nv >>> 40 % 256, nv >>> 32 % 256,
   nv >>> 24 % 256, nv >>> 16 % 256, nv >>> 8 % 256, nv % 256]

/-- SHA-256 padding: a 0x80 byte, zeros, then the 64-bit message bit length,
to a multiple of 64 bytes. -/
def padMessage (msg : List ℕ) : List ℕ :=
  let l := msg.length
  msg ++ [128] ++ List.replicate ((64 - (l + 9) % 64) % 64) 0 ++ lenBytes (8 * l)

/-- Group bytes into big-endian 32-bit words. -/
def bytesToWords : List ℕ → List ℕ
  | b0 :: b1 :: b2 :: b3 :: rest =>
      (b0 * 16777216 + b1 * 65536 + b2 * 256 + b3) :: bytesToWords rest
  | _ => []

/-- One message-schedule extension step, appending word `w[i]` for
`i = size`. -/
def schedStep (arr : Array ℕ) : Array ℕ :=
  let i := arr.size
  arr.push ((arr.getD (i - 16) 0 + smallSigma0 (arr.getD (i - 15) 0)
    + arr.getD (i - 7) 0 + smallSigma1 (arr.getD (i - 2) 0)) % M32)

def schedIter (arr : Array ℕ) : ℕ → Array ℕ
  | 0 => arr
  | n + 1 => schedIter (schedStep arr) n

/-- One compression round. -/
def compressRound (w : Array ℕ) (st : Hash8) (i : ℕ) : Hash8 :=
  let t1 := (st.h + bigSigma1 st.e + chFun st.e st.f st.g
    + kConst.getD i 0 + w.getD i 0) % M32
  let t2 := (bigSigma0 st.a + majFun st.a st.b st.c) % M32
  { a := (t1 + t2) % M32, b := st.a, c := st.b, d := st.c,
    e := (st.d + t1) % M32, f := st.e, g := st.f, h := st.g }

/-- Compress one 64-byte block into the running hash. -/
def compressBlock (hv : Hash8) (block : List ℕ) : Hash8 :=
  let w := schedIter (Array.mk (bytesToWords block)) 48
  let st := (List.range 64).foldl (compressRound w) hv
  { a := (hv.a + st.a) % M32, b := (hv.b + st.b) % M32,
    c := (hv.c + st.c) % M32, d := (hv.d + st.d) % M32,
    e := (hv.e + st.e) % M32, f := (hv.f + st.f) % M32,
    g := (hv.g + st.g) % M32, h := (hv.h + st.h) % M32 }

/-- Split a padded message into its 64-byte blocks. -/
def chunksGo : ℕ → List ℕ → List (List ℕ)
  | 0, _ => []
  | n + 1, l => l.take 64 :: chunksGo n (l.drop 64)

/-- The eight 32-bit words of the SHA-256 digest of a string's UTF-8 bytes. -/
def sha256Words (s : String) : List ℕ :=
  let padded := padMessage (utf8Bytes s)
  let fv := (chunksGo (padded.length / 64) padded).foldl compressBlock initH
  [fv.a, fv.b, fv.c, fv.d, fv.e, fv.f, fv.g, fv.h]

/-- Lowercase hex digit for a value below 16. -/
def hexChar (d : ℕ) : Char :=
  if d = 0 then '0' else if d = 1 then '1' else if d = 2 then '2'
  else if d = 3 then '3' else if d = 4 then '4' else if d = 5 then '5'
  else if d = 6 then '6' else if d = 7 then '7' else if d = 8 then '8'
  else if d = 9 then '9' else if d = 10 then 'a' else if d = 11 then 'b'
  else if d = 12 then 'c' else if d = 13 then 'd' else if d = 14 then 'e'
  else 'f'

/-- Zero-padded 8-digit lowercase hex of a 32-bit word (the `08x` format). -/
def hex8 (w : ℕ) : List Char :=
  [hexChar (w / 268435456 % 16), hexChar (w / 16777216 % 16),
   hexChar (w / 1048576 % 16), hexChar (w / 65536 % 16),
   hexChar (w / 4096 % 16), hexChar (w / 256 % 16),
   hexChar (w / 16 % 16), hexChar (w % 16)]

/-- The 64 characters of `hashlib.sha256(...).hexdigest()`. -/
def sha256HexChars (s : String) : List Char :=
  ((sha256Words s).map hex8).flatten

/-- Value of one hex digit, as `int(c, 16)` reads it (0 for non-digits,
which never occur in a digest). -/
def hexVal (c : Char) : ℕ :=
  if c = '0' then 0 else if c = '1' then 1 else if c = '2' then 2
  else if c = '3' then 3 else if c = '4' then 4 else if c = '5' then 5
  else if c = '6' then 6 else if c = '7' then 7 else if c = '8' then 8
  else if c = '9' then 9 else if c = 'a' then 10 else if c = 'b' then 11
  else if c = 'c' then 12 else if c = 'd' then 13 else if c = 'e' then 14
  else if c = 'f' then 15 else 0

/-- `int(s, 16)` over a list of hex digits. -/
def hexValue (l : List Char) : ℕ :=
  l.foldl (fun acc c => 16 * acc + hexVal c) 0

/-! ## Canonical JSON (model of `json.dumps(..., ensure_ascii=False,
sort_keys=True)` on the payload shape) -/

/-- JSON escaping of one character (ensure_ascii=False: only the quote, the
backslash and control characters are escaped). -/
def jsonEscapeChar (c : Char) : String :=
  if c = '"' then "\\\""
  else if c = '\\' then "\\\\"
  else if c = '\n' then "\\n"
  else if c = '\t' then "\\t"
  else if c = '\r' then "\\r"
  else if c = '\x08' then "\\b"
  else if c = '\x0c' then "\\f"
  else if c.toNat < 32 then
    "\\u00" ++ String.mk [hexChar (c.toNat / 16), hexChar (c.toNat % 16)]
  else String.mk [c]

def jsonStr (s : String) : String :=
  "\"" ++ String.join (s.data.map jsonEscapeChar) ++ "\""

/-- Decimal digits of the fractional part of a nonnegative rational
(fuel-bounded; CPython prints the shortest float repr, which this
approximates — the encoding only feeds the hash). -/
def fracDigits : ℕ → ℚ → List Char
  | 0, _ => []
  | fuel + 1, r =>
      if r = 0 then []
      else
        let r10 := r * 10
        let d := (⌊r10⌋).toNat
        hexChar d :: fracDigits fuel (r10 - ⌊r10⌋)

/-- Decimal rendering of a nonnegative rational as a Python float repr
(always with a decimal point, as `json.dumps(0.0)` prints 0.0). -/
def ratReprNN (q : ℚ) : String :=
  let ds := fracDigits 17 (q - ⌊q⌋)
  toString (⌊q⌋).toNat ++ "." ++ (if ds.isEmpty then "0" else String.mk ds)

def ratRepr (q : ℚ) : String :=
  if q < 0 then "-" ++ ratReprNN (-q) else ratReprNN q

def jsonBool (bv : Bool) : String :=
  if bv then "true" else "false"

/-- Canonical JSON of a payload; keys appear in sorted order, with the
separators json.dumps uses by default. -/
def canonPayload (P : Payload) : String :=
  "\x7b\"device\": \x7b\"age_months\": " ++ toString P.device.age_months
    ++ ", \"brand\": " ++ jsonStr P.device.brand
    ++ ", \"model\": " ++ jsonStr P.device.model
    ++ "\x7d, \"signals\": \x7b\"battery_health_percent\": "
    ++ toString P.signals.battery_health_percent
    ++ ", \"charge_cycles\": " ++ toString P.signals.charge_cycles
    ++ ", \"frame_drop_rate\": " ++ ratRepr P.signals.frame_drop_rate
    ++ ", \"repair_history_count\": " ++ toString P.signals.repair_history_count
    ++ "\x7d, \"user_preferences\": \x7b\"budget_priority\": "
    ++ jsonStr P.user_preferences.budget_priority
    ++ ", \"performance_priority\": " ++ jsonStr P.user_preferences.performance_priority
    ++ ", \"prefers_financing\": " ++ jsonBool P.user_preferences.prefers_financing
    ++ ", \"sustainability_priority\": "
    ++ jsonStr P.user_preferences.sustainability_priority
    ++ "\x7d\x7d"

/-- Canonical JSON of the incentive seed structure
`{"input_payload": ..., "selected_option_id": ...}` (keys sorted). -/
def canonIncentive (P : Payload) (selectedOptionId : String) : String :=
  "\x7b\"input_payload\": " ++ canonPayload P
    ++ ", \"selected_option_id\": " ++ jsonStr selectedOptionId ++ "\x7d"

/-- `_stable_seed` of engine.py: first 8 hex digits of the SHA-256 hex
digest of the canonical JSON of the payload, read as an integer. -/
def assessSeed (P : Payload) : ℕ :=
  hexValue ((sha256HexChars (canonPayload P)).take 8)

/-- `_stable_seed` of incentive.py: same, over `{input_payload,
selected_option_id}`. -/
def incentiveSeed (P : Payload) (selectedOptionId : String) : ℕ :=
  hexValue ((sha256HexChars (canonIncentive P selectedOptionId)).take 8)

/-! ## Error model and response assembly -/

/-- Python exception kinds the core can raise: `ValueError` from validation,
`AttributeError` from calling `.get` on a non-dict, `AssertionError` from
the end-of-pipeline contract assertions. -/
inductive PyErr where
  | valueError (msg : String)
  | attributeError (msg : String)
  | assertionError (msg : String)
  deriving Repr, DecidableEq

def MODEL_VERSION : String := "mvp-contract-v1.0.0"

structure DecisionSummary where
  recommended_primary_option_id : String
  rationale : String
  pareto_note : String
  deriving Repr, DecidableEq

structure Disclaimer where
  type : String
  text : String
  deriving Repr, DecidableEq

structure AssessResponse where
  request_id : String
  timestamp_utc : String
  model_version : String
  inputs_echo : Payload
  rul_estimate : RulEstimate
  decision_summary : DecisionSummary
  recommendations : List Card
  disclaimer : Disclaimer
  deriving Repr, DecidableEq

/-- Python set equality of two key lists. -/
def listSetEq (a b : List String) : Bool :=
  a.all (fun x => b.contains x) && b.all (fun x => a.contains x)

/-- The keys of the assess response dict, in insertion order. -/
def assessResponseKeys : List String :=
  ["request_id", "timestamp_utc", "model_version", "inputs_echo",
   "rul_estimate", "decision_summary", "recommendations", "disclaimer"]

/-- `expected_keys` in assess_logic. -/
def assessExpectedKeys : List String :=
  ["request_id", "timestamp_utc", "model_version", "inputs_echo",
   "rul_estimate", "decision_summary", "recommendations", "disclaimer"]

/-- The pure computation of `assess_logic` after validation; `now` is the
wall-clock timestamp string and `R` the raw-draw family modelling
`random.Random`. -/
def assessCore (R : ℕ → ℕ → ℕ) (now : String) (P : Payload) : AssessResponse :=
  let seed := assessSeed P
  let rng := mkRng R (seed + 42)
  let rul_estimate := (computeRulAndConfidence P).1
  let scores := computeOptionScores P
  let impacts := (buildEstimatedImpacts rng).1
  let recommended := pickRecommended scores
  { request_id := "req_" ++ String.mk (hex8 seed)
    timestamp_utc := now
    model_version := MODEL_VERSION
    inputs_echo := P
    rul_estimate := rul_estimate
    decision_summary :=
      { recommended_primary_option_id := recommended
        rationale := buildRationale recommended P rul_estimate
        pareto_note :=
          "repair_battery en düşük maliyet; refurb_buy dengeli maliyet-performans; "
            ++ "tradein_new en yüksek performans ve en uzun RUL kazanımı sağlar." }
    recommendations := buildRecommendations P scores impacts recommended
    disclaimer :=
      { type := "advisory"
        text := "Bu çıktı karar destek amaçlıdır; nihai fiyat ve kampanyalar "
          ++ "kanal doğrulamasına tabidir." } }

def assessKeyMsg : String := "Top-level assess key set mismatch"

/-- `assess_logic` after validation: the computation plus the key-set
assertion. -/
def assessLogic (R : ℕ → ℕ → ℕ) (now : String) (P : Payload) :
    Except PyErr AssessResponse :=
  if listSetEq assessResponseKeys assessExpectedKeys then .ok (assessCore R now P)
  else .error (.assertionError assessKeyMsg)

/-! ## Incentive pipeline (incentive.py) -/

structure PackageValue where
  cash_amount_try : Option ℤ
  carbon_points : Option ℤ
  perk : String
  deriving Repr, DecidableEq

structure PackageUi where
  badge : String
  cta_label : String
  deriving Repr, DecidableEq

structure IncentivePackage where
  package_id : String
  title : String
  description : String
  value : PackageValue
  ui : PackageUi
  deriving Repr, DecidableEq

structure IncentiveResponse where
  request_id : String
  model_version : String
  selected_option_id : String
  packages : List IncentivePackage
  accept_score : ℚ
  impact_score : ℚ
  notes : List String
  disclaimer : Disclaimer
  deriving Repr, DecidableEq

/-- `heavy_usage` in incentive_logic. -/
def heavyUsage (P : Payload) : Bool :=
  decide (850 ≤ P.signals.charge_cycles)
    || decide ((15 : ℚ) / 100 ≤ P.signals.frame_drop_rate)
    || decide (2 ≤ P.signals.repair_history_count)

/-- The pure computation of `incentive_logic` after validation and the
selected-option check, with the exact draw sequence of the source. -/
def incentiveCore (R : ℕ → ℕ → ℕ) (P : Payload) (selectedOptionId : String) :
    IncentiveResponse :=
  let prefs := P.user_preferences
  let sustainability_priority := prefs.sustainability_priority
  let budget_priority := prefs.budget_priority
  let prefers_financing := prefs.prefers_financing
  let sustainability_weight := mapPriority sustainability_priority
  let budget_weight := mapPriority budget_priority
  let sustain_bias := sustainability_weight - budget_weight
  let wipe_anxiety := !prefers_financing && (sustainability_priority = "high")
  let heavy_usage := heavyUsage P
  let seed := incentiveSeed P selectedOptionId
  let rng0 := mkRng R (seed + 42)
  let base :=
    if 0 < sustain_bias then
      let (cp, r1) := rng0.randint 16000 22000
      let (ca, r2) := r1.randint 7500 12000
      (ca, cp, r2)
    else if sustain_bias < 0 then
      let (ca, r1) := rng0.randint 13000 17000
      let (cp, r2) := r1.randint 7000 12000
      (ca, cp, r2)
    else
      let (ca, r1) := rng0.randint 10000 14500
      let (cp, r2) := r1.randint 11000 17000
      (ca, cp, r2)
  let cash0 := base.1
  let carbon0 := base.2.1
  let rng1 := base.2.2
  let (hybridCash0, rng2) := rng1.randint 8500 12000
  let (hybridCarbon0, rng3) := rng2.randint 6000 10000
  let hyb :=
    if 0 < sustain_bias then
      let (d1, r1) := rng3.randint 400 1200
      let (d2, r2) := r1.randint 300 900
      (hybridCash0 - d2, hybridCarbon0 + d1, r2)
    else if sustain_bias < 0 then
      let (d1, r1) := rng3.randint 400 1200
      let (d2, r2) := r1.randint 300 900
      (hybridCash0 + d1, hybridCarbon0 - d2, r2)
    else (hybridCash0, hybridCarbon0, rng3)
  let hybridCash1 := max hyb.1 7000
  let hybridCarbon1 := max hyb.2.1 5000
  let rng4 := hyb.2.2
  let heavyAdj :=
    if heavy_usage then
      let (d1, r1) := rng4.randint 600 1600
      let (d2, r2) := r1.randint 300 800
      (cash0 + d1, hybridCash1 + d2, r2)
    else (cash0, hybridCash1, rng4)
  let cash1 := heavyAdj.1
  let hybridCash2 := heavyAdj.2.1
  let rng5 := heavyAdj.2.2
  let sustAdj :=
    if sustainability_priority = "high" then
      let (d1, r1) := rng5.randint 600 1800
      let (d2, r2) := r1.randint 200 800
      (carbon0 + d1, hybridCarbon1 + d2, r2)
    else (carbon0, hybridCarbon1, rng5)
  let carbon1 := sustAdj.1
  let hybridCarbon2 := sustAdj.2.1
  let cash_amount := clampZ cash1 7000 18000
  let carbon_points_amount := clampZ carbon1 6000 24000
  let hybrid_cash_amount := clampZ hybridCash2 7000 13000
  let hybrid_carbon_points := clampZ hybridCarbon2 5000 12000
  let cash_perk := if heavy_usage || prefers_financing then "extra_data" else "none"
  let carbon_perk := if sustainability_priority = "high" then "tree" else "donation"
  let hybrid_perk := if sustainability_priority = "high" then "donation" else "none"
  let packages : List IncentivePackage :=
    [ { package_id := "cash"
        title := "Nakit Takas Paketi"
        description := "Anlık nakit indirim ile ilk maliyeti hızlı düşürür."
        value := { cash_amount_try := some cash_amount, carbon_points := none,
                   perk := cash_perk }
        ui := { badge := "Nakit avantaj", cta_label := "Nakit paketi seç" } },
      { package_id := "carbon_points"
        title := "Karbon Puan Paketi"
        description := "Sürdürülebilirlik katkısını yüksek karbon puanı ile ödüllendirir."
        value := { cash_amount_try := none, carbon_points := some carbon_points_amount,
                   perk := carbon_perk }
        ui := { badge := "Karbon etkisi", cta_label := "Karbon puanı seç" } },
      { package_id := "hybrid"
        title := "Hibrit Denge Paketi"
        description := "Nakit ve karbon puanını dengeli biçimde birleştirir."
        value := { cash_amount_try := some hybrid_cash_amount,
                   carbon_points := some hybrid_carbon_points, perk := hybrid_perk }
        ui := { badge := "Dengeli teklif", cta_label := "Hibrit paketi seç" } } ]
  let cash_norm := clamp ((cash_amount : ℚ) / 17000) 0 1
  let carbon_norm := clamp ((carbon_points_amount : ℚ) / 22000) 0 1
  let accept_score0 := 45 / 100 + (22 / 100) * (budget_weight / 3)
    + (18 / 100) * cash_norm + (if prefers_financing then 7 / 100 else 0)
    + (if heavy_usage then 4 / 100 else 0)
  let impact_score0 := 4 / 10 + (3 / 10) * (sustainability_weight / 3)
    + (22 / 100) * carbon_norm
    + (if sustainability_priority = "high" then 5 / 100 else 0)
  let accept_score := round2 (clamp accept_score0 0 1)
  let impact_score := round2 (clamp impact_score0 0 1)
  let notes0 : List String := []
  let notes1 := if wipe_anxiety then
    notes0 ++ ["Veri silme süreci sertifikalı yürütülür ve teslimde silme sertifikası sağlanır."]
    else notes0
  let notes2 := if heavy_usage then
    notes1 ++ ["Yüksek kullanım sinyalleri nedeniyle nakit/hibrit seçenekleri kısa vadeli maliyet baskısını azaltır."]
    else notes1
  let notes3 := if sustainability_priority = "high" then
    notes2 ++ ["Karbon puanı paketi bu profilde çevresel etki skorunu güçlendirir."]
    else notes2
  let notes4 := if budget_priority = "high" then
    notes3 ++ ["Bütçe önceliği yüksek olduğu için nakit paketinin kabul olasılığı yükselmiştir."]
    else notes3
  let notes := if notes4.isEmpty then
    ["Paket değerleri cihaz durumu ve kullanıcı önceliklerine göre dengelenmiştir."]
    else notes4
  { request_id := "req_" ++ String.mk (hex8 seed) ++ "_INC"
    model_version := MODEL_VERSION
    selected_option_id := selectedOptionId
    packages := packages
    accept_score := accept_score
    impact_score := impact_score
    notes := notes
    disclaimer :=
      { type := "advisory"
        text := "Teşvik değerleri kanal ve kampanya koşullarına göre işlem anında "
          ++ "güncellenebilir." } }

/-- The keys of the incentive response dict, in insertion order. -/
def incentiveResponseKeys : List String :=
  ["request_id", "model_version", "selected_option_id", "packages",
   "accept_score", "impact_score", "notes", "disclaimer"]

/-- `expected_keys` in incentive_logic. -/
def incentiveExpectedKeys : List String :=
  ["request_id", "model_version", "selected_option_id", "packages",
   "accept_score", "impact_score", "notes", "disclaimer"]

def incentiveKeyMsg : String := "Top-level key set mismatch"

def packageIdsMsg : String := "Invalid package ids"

def acceptRangeMsg : String := "accept_score out of range"

def impactRangeMsg : String := "impact_score out of range"

def notesMsg : String := "notes must contain at least one item"

/-- The four `assert` statements at the end of incentive_logic, evaluated in
order; `none` when all hold, otherwise the first failing assertion. -/
def incentiveAssertErr (r : IncentiveResponse) : Option PyErr :=
  if !(listSetEq incentiveResponseKeys incentiveExpectedKeys) then
    some (.assertionError incentiveKeyMsg)
  else if !(listSetEq (r.packages.map (fun p => p.package_id))
      ["cash", "carbon_points", "hybrid"]) then
    some (.assertionError packageIdsMsg)
  else if !(decide ((0 : ℚ) ≤ r.accept_score) && decide (r.accept_score ≤ 1)) then
    some (.assertionError acceptRangeMsg)
  else if !(decide ((0 : ℚ) ≤ r.impact_score) && decide (r.impact_score ≤ 1)) then
    some (.assertionError impactRangeMsg)
  else if !(decide (1 ≤ r.notes.length)) then
    some (.assertionError notesMsg)
  else none

def selMsg : String := "selected_option_id must be a non-empty string"

/-- `incentive_logic` after payload validation: the selected-option check,
then the computation, then the contract assertions. -/
def incentiveLogic (R : ℕ → ℕ → ℕ) (P : Payload) (selectedOptionId : String) :
    Except PyErr IncentiveResponse :=
  if selectedOptionId = "" then .error (.valueError selMsg)
  else
    let r := incentiveCore R P selectedOptionId
    match incentiveAssertErr r with
    | some e => .error e
    | none => .ok r

/-! ## Untyped payloads and the input validators

`_validate_input_payload` receives an arbitrary object-like value; `JVal`
models Python/JSON values. A missing key and a key mapped to `None` behave
identically under `dict.get`, exactly as in the source. -/

inductive JVal where
  | jnull
  | jbool (b : Bool)
  | jint (n : ℤ)
  | jfloat (q : ℚ)
  | jstr (s : String)
  | jarr (xs : List JVal)
  | jobj (fields : List (String × JVal))

/-- Association lookup with Python's `dict.get` default `None`. -/
def assocD : List (String × JVal) → String → JVal
  | [], _ => .jnull
  | (k, v) :: rest, key => if k = key then v else assocD rest key

def hasKey (fields : List (String × JVal)) (key : String) : Bool :=
  fields.any (fun kv => kv.1 = key)

/-- `o.get(k)` with default `None` for an object, as `jGetD`; non-objects
never reach this accessor in the validators (they fail earlier). -/
def jGetD (v : JVal) (key : String) : JVal :=
  match v with
  | .jobj fields => assocD fields key
  | _ => .jnull

/-- Python `isinstance(x, int)`: booleans are ints in Python. -/
def pyIsInt : JVal → Bool
  | .jint _ => true
  | .jbool _ => true
  | _ => false

/-- Python `isinstance(x, (int, float))`. -/
def pyIsNum : JVal → Bool
  | .jint _ => true
  | .jbool _ => true
  | .jfloat _ => true
  | _ => false

def pyIsStr : JVal → Bool
  | .jstr _ => true
  | _ => false

def pyIsBool : JVal → Bool
  | .jbool _ => true
  | _ => false

/-- Integer value of an int-like Python value (True is 1, False is 0). -/
def pyIntVal : JVal → ℤ
  | .jint n => n
  | .jbool b => if b then 1 else 0
  | _ => 0

/-- `float(x)` of a number-like Python value. -/
def pyFloatVal : JVal → ℚ
  | .jint n => n
  | .jfloat q => q
  | .jbool b => if b then 1 else 0
  | _ => 0

/-- Truthiness test `isinstance(x, str) and x` used for brand/model. -/
def isNonemptyStr : JVal → Bool
  | .jstr s => !(s == "")
  | _ => false

/-- Membership in the priority enum; only equal strings compare equal to a
string in a Python set of strings. -/
def isEnumPriority : JVal → Bool
  | .jstr s => (s == "low") || (s == "medium") || (s == "high")
  | _ => false

def attrGetMsg : String := "object has no attribute get"

/-- One field check of the validators: fetch with `.get` (an
`AttributeError` on a non-dict, as in CPython) and test the predicate,
raising `ValueError msg` when it fails. -/
def checkField (o : JVal) (key : String) (pred : JVal → Bool) (msg : String) :
    Except PyErr Unit :=
  match o with
  | .jobj fields =>
      if pred (assocD fields key) then .ok () else .error (.valueError msg)
  | _ => .error (.attributeError attrGetMsg)

/-- Run unit checks in order, stopping at the first error (the source raises
on the first failing check). -/
def seqE : List (Except PyErr Unit) → Except PyErr Unit
  | [] => .ok ()
  | c :: rest =>
      match c with
      | .ok _ => seqE rest
      | .error e => .error e

def topMsg : String := "input_payload must include device, signals, user_preferences"

/-- Top-level check of engine.py's validator: dict-ness and the three
required keys share one error message. -/
def checkTop (v : JVal) : Except PyErr Unit :=
  match v with
  | .jobj fields =>
      if hasKey fields "device" && hasKey fields "signals"
          && hasKey fields "user_preferences" then .ok ()
      else .error (.valueError topMsg)
  | _ => .error (.valueError topMsg)

def msgBrand : String := "device.brand must be non-empty string"

def msgModel : String := "device.model must be non-empty string"

def msgAge : String := "device.age_months must be int >= 0"

def msgBatteryInt : String := "signals.battery_health_percent must be int"

def msgBatteryRange : String := "signals.battery_health_percent must be in [0, 100]"

def msgCycles : String := "signals.charge_cycles must be int >= 0"

def msgFrameFloat : String := "signals.frame_drop_rate must be float"

def msgFrameRange : String := "signals.frame_drop_rate must be in [0, 1]"

def msgRepairs : String := "signals.repair_history_count must be int >= 0"

def msgBudget : String := "user_preferences.budget_priority must be low|medium|high"

def msgSust : String := "user_preferences.sustainability_priority must be low|medium|high"

def msgPerf : String := "user_preferences.performance_priority must be low|medium|high"

def msgFinancing : String := "user_preferences.prefers_financing must be bool"

def nonnegInt (x : JVal) : Bool :=
  pyIsInt x && decide (0 ≤ pyIntVal x)

def batteryRangeOk (x : JVal) : Bool :=
  decide (0 ≤ pyIntVal x) && decide (pyIntVal x ≤ 100)

def frameRangeOk (x : JVal) : Bool :=
  decide (0 ≤ pyFloatVal x) && decide (pyFloatVal x ≤ 1)

/-- `_validate_input_payload` of engine.py: the checks in source order. -/
def validateAssessJ (v : JVal) : Except PyErr Unit :=
  let device := jGetD v "device"
  let signals := jGetD v "signals"
  let prefs := jGetD v "user_preferences"
  seqE
    [checkTop v,
     checkField device "brand" isNonemptyStr msgBrand,
     checkField device "model" isNonemptyStr msgModel,
     checkField device "age_months" nonnegInt msgAge,
     checkField signals "battery_health_percent" pyIsInt msgBatteryInt,
     checkField signals "battery_health_percent" batteryRangeOk msgBatteryRange,
     checkField signals "charge_cycles" nonnegInt msgCycles,
     checkField signals "frame_drop_rate" pyIsNum msgFrameFloat,
     checkField signals "frame_drop_rate" frameRangeOk msgFrameRange,
     checkField signals "repair_history_count" nonnegInt msgRepairs,
     checkField prefs "budget_priority" isEnumPriority msgBudget,
     checkField prefs "sustainability_priority" isEnumPriority msgSust,
     checkField prefs "performance_priority" isEnumPriority msgPerf,
     checkField prefs "prefers_financing" pyIsBool msgFinancing]

def dictMsg : String := "input_payload must be a dict"

/-- Top-level check of incentive.py's validator: dict-ness and key presence
raise distinct messages there. -/
def checkTopInc (v : JVal) : Except PyErr Unit :=
  match v with
  | .jobj fields =>
      if hasKey fields "device" && hasKey fields "signals"
          && hasKey fields "user_preferences" then .ok ()
      else .error (.valueError topMsg)
  | _ => .error (.valueError dictMsg)

/-- `_validate_input_payload` of incentive.py: the subset of checks it
performs, in source order. -/
def validateIncJ (v : JVal) : Except PyErr Unit :=
  let signals := jGetD v "signals"
  let prefs := jGetD v "user_preferences"
  seqE
    [checkTopInc v,
     checkField signals "charge_cycles" nonnegInt msgCycles,
     checkField signals "frame_drop_rate" pyIsNum msgFrameFloat,
     checkField signals "frame_drop_rate" frameRangeOk msgFrameRange,
     checkField signals "repair_history_count" nonnegInt msgRepairs,
     checkField prefs "budget_priority" isEnumPriority msgBudget,
     checkField prefs "sustainability_priority" isEnumPriority msgSust,
     checkField prefs "performance_priority" isEnumPriority msgPerf,
     checkField prefs "prefers_financing" pyIsBool msgFinancing]

/-! ### The spec's validity predicate (section 4.1 of the design)

Written from the spec's field list: all required fields present with correct
types and in-range values. `int`, `number` and `bool` are read with
Python's `isinstance` semantics (a Python bool is an int). -/

/-- Whether a field of an object satisfies a predicate (false when the
container is not an object). -/
def fieldOkB (o : JVal) (key : String) (pred : JVal → Bool) : Bool :=
  match o with
  | .jobj fields => pred (assocD fields key)
  | _ => false

def topOkB (v : JVal) : Bool :=
  match v with
  | .jobj fields =>
      hasKey fields "device" && hasKey fields "signals"
        && hasKey fields "user_preferences"
  | _ => false

/-- Spec 4.1, full validator: top-level key presence; brand/model non-empty
strings; age_months non-negative integer; battery_health_percent integer in
[0,100]; charge_cycles non-negative integer; frame_drop_rate number in
[0,1]; repair_history_count non-negative integer; the three priorities in
the enum; prefers_financing boolean. -/
def specValidAssess (v : JVal) : Bool :=
  topOkB v
    && fieldOkB (jGetD v "device") "brand" isNonemptyStr
    && fieldOkB (jGetD v "device") "model" isNonemptyStr
    && fieldOkB (jGetD v "device") "age_months" nonnegInt
    && fieldOkB (jGetD v "signals") "battery_health_percent" pyIsInt
    && fieldOkB (jGetD v "signals") "battery_health_percent" batteryRangeOk
    && fieldOkB (jGetD v "signals") "charge_cycles" nonnegInt
    && fieldOkB (jGetD v "signals") "frame_drop_rate" pyIsNum
    && fieldOkB (jGetD v "signals") "frame_drop_rate" frameRangeOk
    && fieldOkB (jGetD v "signals") "repair_history_count" nonnegInt
    && fieldOkB (jGetD v "user_preferences") "budget_priority" isEnumPriority
    && fieldOkB (jGetD v "user_preferences") "sustainability_priority" isEnumPriority
    && fieldOkB (jGetD v "user_preferences") "performance_priority" isEnumPriority
    && fieldOkB (jGetD v "user_preferences") "prefers_financing" pyIsBool

/-- Spec 4.1, incentive subset: charge_cycles, frame_drop_rate,
repair_history_count and the three preference fields. -/
def specValidInc (v : JVal) : Bool :=
  topOkB v
    && fieldOkB (jGetD v "signals") "charge_cycles" nonnegInt
    && fieldOkB (jGetD v "signals") "frame_drop_rate" pyIsNum
    && fieldOkB (jGetD v "signals") "frame_drop_rate" frameRangeOk
    && fieldOkB (jGetD v "signals") "repair_history_count" nonnegInt
    && fieldOkB (jGetD v "user_preferences") "budget_priority" isEnumPriority
    && fieldOkB (jGetD v "user_preferences") "sustainability_priority" isEnumPriority
    && fieldOkB (jGetD v "user_preferences") "performance_priority" isEnumPriority
    && fieldOkB (jGetD v "user_preferences") "prefers_financing" pyIsBool

/-! ### The documented failure behaviour (spec 4.1 and 7, as amended)

Written from the amended claim: a failing validation reports the first
offense in the documented check order — a `ValueError` naming that field
when the member holding it is a dict (and for the top-level shape
requirement), but an `AttributeError` from `.get` when the member holding
the first offending field is not a dict. -/

def outcomeToExcept : Option PyErr → Except PyErr Unit
  | none => .ok ()
  | some e => .error e

/-- One step of the documented check order: examine the named field of the
member `o`; when `o` is not a dict the step is an `AttributeError`, when
the field fails the predicate it is a `ValueError` with the documented
message, otherwise the walk continues with `rest`. -/
def checkSpec (o : JVal) (key : String) (pred : JVal → Bool) (msg : String)
    (rest : Option PyErr) : Option PyErr :=
  match o with
  | .jobj fields =>
      if pred (assocD fields key) then rest else some (.valueError msg)
  | _ => some (.attributeError attrGetMsg)

/-- The first offense of the full (engine) validator in the documented
check order, or `none` when the payload is valid. -/
def specAssessOutcome (v : JVal) : Option PyErr :=
  let device := jGetD v "device"
  let signals := jGetD v "signals"
  let prefs := jGetD v "user_preferences"
  if topOkB v then
    checkSpec device "brand" isNonemptyStr msgBrand
      (checkSpec device "model" isNonemptyStr msgModel
        (checkSpec device "age_months" nonnegInt msgAge
          (checkSpec signals "battery_health_percent" pyIsInt msgBatteryInt
            (checkSpec signals "battery_health_percent" batteryRangeOk msgBatteryRange
              (checkSpec signals "charge_cycles" nonnegInt msgCycles
                (checkSpec signals "frame_drop_rate" pyIsNum msgFrameFloat
                  (checkSpec signals "frame_drop_rate" frameRangeOk msgFrameRange
                    (checkSpec signals "repair_history_count" nonnegInt msgRepairs
                      (checkSpec prefs "budget_priority" isEnumPriority msgBudget
                        (checkSpec prefs "sustainability_priority" isEnumPriority msgSust
                          (checkSpec prefs "performance_priority" isEnumPriority msgPerf
                            (checkSpec prefs "prefers_financing" pyIsBool msgFinancing
                              none))))))))))))
  else some (.valueError topMsg)

/-- The first offense of the incentive validator in its documented check
order (its top-level shape failure distinguishes a non-dict payload from
missing keys), or `none` when the subset it checks is valid. -/
def specIncOutcome (v : JVal) : Option PyErr :=
  let signals := jGetD v "signals"
  let prefs := jGetD v "user_preferences"
  match v with
  | .jobj fields =>
      if hasKey fields "device" && hasKey fields "signals"
          && hasKey fields "user_preferences" then
        checkSpec signals "charge_cycles" nonnegInt msgCycles
          (checkSpec signals "frame_drop_rate" pyIsNum msgFrameFloat
            (checkSpec signals "frame_drop_rate" frameRangeOk msgFrameRange
              (checkSpec signals "repair_history_count" nonnegInt msgRepairs
                (checkSpec prefs "budget_priority" isEnumPriority msgBudget
                  (checkSpec prefs "sustainability_priority" isEnumPriority msgSust
                    (checkSpec prefs "performance_priority" isEnumPriority msgPerf
                      (checkSpec prefs "prefers_financing" pyIsBool msgFinancing
                        none)))))))
      else some (.valueError topMsg)
  | _ => some (.valueError dictMsg)

/-! ### Full pipelines over untyped payloads -/

def asStrD : JVal → String
  | .jstr s => s
  | _ => ""

def asBoolD : JVal → Bool
  | .jbool b => b
  | _ => false

/-- Extraction of the typed payload from an untyped one; the defaults are
never consulted after successful validation. -/
def parsePayloadD (v : JVal) : Payload :=
  let device := jGetD v "device"
  let signals := jGetD v "signals"
  let prefs := jGetD v "user_preferences"
  { device :=
      { brand := asStrD (jGetD device "brand")
        model := asStrD (jGetD device "model")
        age_months := pyIntVal (jGetD device "age_months") }
    signals :=
      { battery_health_percent := pyIntVal (jGetD signals "battery_health_percent")
        charge_cycles := pyIntVal (jGetD signals "charge_cycles")
        frame_drop_rate := pyFloatVal (jGetD signals "frame_drop_rate")
        repair_history_count := pyIntVal (jGetD signals "repair_history_count") }
    user_preferences :=
      { budget_priority := asStrD (jGetD prefs "budget_priority")
        sustainability_priority := asStrD (jGetD prefs "sustainability_priority")
        performance_priority := asStrD (jGetD prefs "performance_priority")
        prefers_financing := asBoolD (jGetD prefs "prefers_financing") } }

/-- `assess_logic` on an untyped payload: validation first; a validation
error aborts the call before any scoring (seed, draws, formulas). -/
def assessJ (R : ℕ → ℕ → ℕ) (now : String) (v : JVal) :
    Except PyErr AssessResponse :=
  match validateAssessJ v with
  | .error e => .error e
  | .ok _ => assessLogic R now (parsePayloadD v)

/-- The runtime check on `selected_option_id`: any non-string or the empty
string raises; any other string is accepted. -/
def incentiveLogicJSel (R : ℕ → ℕ → ℕ) (P : Payload) (sel : JVal) :
    Except PyErr IncentiveResponse :=
  match sel with
  | .jstr s => incentiveLogic R P s
  | _ => .error (.valueError selMsg)

/-- `incentive_logic` on an untyped payload and selected option. -/
def incentiveJ (R : ℕ → ℕ → ℕ) (v : JVal) (sel : JVal) :
    Except PyErr IncentiveResponse :=
  match validateIncJ v with
  | .error e => .error e
  | .ok _ => incentiveLogicJSel R (parsePayloadD v) sel

/-! ## Reference formulas as the spec states them (section 4.3) -/

/-- Spec: `rul_point = clamp(24 - clamp(age_months/6, 0, 12) -
(100-battery)/10 - cycles/400 - frame_drop*10 - repairs*1.5, 1, 30)`. -/
def rulPointSpec (P : Payload) : ℚ :=
  clamp (24 - clamp ((P.device.age_months : ℚ) / 6) 0 12
    - (100 - (P.signals.battery_health_percent : ℚ)) / 10
    - (P.signals.charge_cycles : ℚ) / 400
    - P.signals.frame_drop_rate * 10
    - (P.signals.repair_history_count : ℚ) * (3 / 2)) 1 30

/-- Spec: `risk = age_months/48 + (100-battery)/60 + cycles/1200 +
frame_drop/0.4 + repairs/4`. -/
def riskSpec (P : Payload) : ℚ :=
  (P.device.age_months : ℚ) / 48
    + (100 - (P.signals.battery_health_percent : ℚ)) / 60
    + (P.signals.charge_cycles : ℚ) / 1200
    + P.signals.frame_drop_rate / (2 / 5)
    + (P.signals.repair_history_count : ℚ) / 4

/-- Spec: `confidence_score = clamp(1 - risk/5, 0.35, 0.9)`. -/
def confidenceScoreSpec (P : Payload) : ℚ :=
  clamp (1 - riskSpec P / 5) (35 / 100) (9 / 10)

/-- Spec: high when the score is at least 0.8, medium-high when at least
0.6, else medium. -/
def confidenceSpec (P : Payload) : String :=
  if 8 / 10 ≤ confidenceScoreSpec P then "high"
  else if 6 / 10 ≤ confidenceScoreSpec P then "medium-high"
  else "medium"

/-- Spec: `margin = 2 + (1-confidence_score)*4`. -/
def marginSpec (P : Payload) : ℚ :=
  2 + (1 - confidenceScoreSpec P) * 4

/-- Spec: `rul_min = floor(rul_point - margin)`, clamped to at least 1. -/
def rulMinSpec (P : Payload) : ℤ :=
  max 1 ⌊rulPointSpec P - marginSpec P⌋

/-- Spec: `rul_max = ceil(rul_point + margin)`, clamped to at most 30. -/
def rulMaxSpec (P : Payload) : ℤ :=
  min 30 ⌈rulPointSpec P + marginSpec P⌉

/-! ## Concrete inputs for witnesses and counterexamples -/

/-- A validation-passing payload used by the witnesses: scenario A of
engine.py's demo block with `frame_drop_rate` 0, an integral rational, so
that every hypothesis stays kernel-decidable. -/
def witnessPayload : Payload :=
  { device := { brand := "Samsung", model := "Galaxy S22", age_months := 31 }
    signals :=
      { battery_health_percent := 76, charge_cycles := 702,
        frame_drop_rate := 0, repair_history_count := 1 }
    user_preferences :=
      { budget_priority := "medium", sustainability_priority := "high",
        performance_priority := "medium", prefers_financing := false } }

/-- A valid payload whose unrounded confidence score 53/60 has more than two
decimal places. -/
def cexPayload : Payload :=
  { device := { brand := "a", model := "a", age_months := 0 }
    signals :=
      { battery_health_percent := 100, charge_cycles := 700,
        frame_drop_rate := 0, repair_history_count := 0 }
    user_preferences :=
      { budget_priority := "low", sustainability_priority := "low",
        performance_priority := "low", prefers_financing := false } }

/-- An untyped payload whose `device` member is an int: every field the spec
requires is missing from it, and `device.get` raises `AttributeError`. -/
def badDeviceJ : JVal :=
  .jobj
    [("device", .jint 5),
     ("signals", .jobj
        [("battery_health_percent", .jint 76), ("charge_cycles", .jint 702),
         ("frame_drop_rate", .jfloat 0), ("repair_history_count", .jint 1)]),
     ("user_preferences", .jobj
        [("budget_priority", .jstr "medium"),
         ("sustainability_priority", .jstr "high"),
         ("performance_priority", .jstr "medium"),
         ("prefers_financing", .jbool false)])]

/-- The witness payload as an untyped payload. -/
def witnessJ : JVal :=
  .jobj
    [("device", .jobj
        [("brand", .jstr "Samsung"), ("model", .jstr "Galaxy S22"),
         ("age_months", .jint 31)]),
     ("signals", .jobj
        [("battery_health_percent", .jint 76), ("charge_cycles", .jint 702),
         ("frame_drop_rate", .jfloat 0), ("repair_history_count", .jint 1)]),
     ("user_preferences", .jobj
        [("budget_priority", .jstr "medium"),
         ("sustainability_priority", .jstr "high"),
         ("performance_priority", .jstr "medium"),
         ("prefers_financing", .jbool false)])]

/-- The lowercase hex alphabet: the image of the sixteen digit values under
`hexChar`. -/
def lowercaseHexDigits : List Char :=
  (List.range 16).map hexChar

/-- The `rul_estimate` of an assess result, when the call succeeded. -/
def rulOf (e : Except PyErr AssessResponse) : Option RulEstimate :=
  match e with
  | .ok r => some r.rul_estimate
  | .error _ => none

/-- The recommended primary option id of an assess result. -/
def recommendedOf (e : Except PyErr AssessResponse) : Option String :=
  match e with
  | .ok r => some r.decision_summary.recommended_primary_option_id
  | .error _ => none

/-- The `estimated_impacts` of every recommendation card of an assess
result, in card order. -/
def impactsOf (e : Except PyErr AssessResponse) : Option (List Impact) :=
  match e with
  | .ok r => some (r.recommendations.map (fun c => c.estimated_impacts))
  | .error _ => none

/-! # Theorems -/

/-! ## Shared helper lemmas -/

theorem clamp_le (v lo hi : ℚ) (h : lo ≤ hi) : clamp v lo hi ≤ hi := by
  unfold clamp
  simp only [max_le_iff]
  exact ⟨h, min_le_left _ _⟩

theorem le_clamp (v lo hi : ℚ) : lo ≤ clamp v lo hi :=
  le_max_left _ _

theorem clampZ_le (v lo hi : ℤ) (h : lo ≤ hi) : clampZ v lo hi ≤ hi := by
  unfold clampZ
  simp only [max_le_iff]
  exact ⟨h, min_le_left _ _⟩

theorem le_clampZ (v lo hi : ℤ) : lo ≤ clampZ v lo hi :=
  le_max_left _ _

theorem round2_mono {x y : ℚ} (h : x ≤ y) : round2 x ≤ round2 y := by
  unfold round2
  have hf : (⌊x * 100 + 1 / 2⌋ : ℤ) ≤ ⌊y * 100 + 1 / 2⌋ := by
    apply Int.floor_mono
    nlinarith
  have h2 : ((⌊x * 100 + 1 / 2⌋ : ℤ) : ℚ) ≤ ((⌊y * 100 + 1 / 2⌋ : ℤ) : ℚ) := by
    exact_mod_cast hf
  linarith

theorem round2_intMul (m : ℤ) : round2 ((m : ℚ) / 100) = (m : ℚ) / 100 := by
  unfold round2
  have harg : ((m : ℚ) / 100) * 100 + 1 / 2 = (m : ℚ) + 1 / 2 := by ring
  rw [harg]
  have hfl : (⌊(m : ℚ) + 1 / 2⌋ : ℤ) = m := by
    rw [add_comm, Int.floor_add_int]
    norm_num
  rw [hfl]

/-- Bounds with two-decimal endpoints are preserved by `round2`. -/
theorem round2_bounds {x : ℚ} (a b : ℤ) (h1 : (a : ℚ) / 100 ≤ x)
    (h2 : x ≤ (b : ℚ) / 100) :
    (a : ℚ) / 100 ≤ round2 x ∧ round2 x ≤ (b : ℚ) / 100 := by
  constructor
  · have := round2_mono h1
    rwa [round2_intMul] at this
  · have := round2_mono h2
    rwa [round2_intMul] at this

theorem round2_clamp01 (x : ℚ) :
    0 ≤ round2 (clamp x 0 1) ∧ round2 (clamp x 0 1) ≤ 1 := by
  have h1 : ((0 : ℤ) : ℚ) / 100 ≤ clamp x 0 1 := by
    simpa using le_clamp x 0 1
  have h2 : clamp x 0 1 ≤ ((100 : ℤ) : ℚ) / 100 := by
    have := clamp_le x 0 1 (by norm_num)
    push_cast
    linarith
  have hb := round2_bounds 0 100 h1 h2
  constructor
  · have h0 := hb.1
    push_cast at h0
    linarith
  · have h0 := hb.2
    push_cast at h0
    linarith

theorem mapPriority_one_le {s : String}
    (h : s = "low" ∨ s = "medium" ∨ s = "high") : 1 ≤ mapPriority s := by
  unfold mapPriority
  rcases h with h | h | h <;> simp [h]

theorem mapPriority_le_three {s : String}
    (h : s = "low" ∨ s = "medium" ∨ s = "high") : mapPriority s ≤ 3 := by
  unfold mapPriority
  rcases h with h | h | h <;> simp [h]
  norm_num

theorem totalWeight_ge_three {P : Payload} (h : ValidPayload P) :
    3 ≤ totalWeight P := by
  obtain ⟨-, -, -, -, -, -, -, -, -, hb, hs, hp⟩ := h
  unfold totalWeight
  have h1 := mapPriority_one_le hb
  have h2 := mapPriority_one_le hs
  have h3 := mapPriority_one_le hp
  linarith

theorem randint_bounds (r : Rng) (lo hi : ℤ) (h : lo ≤ hi) :
    lo ≤ (r.randint lo hi).1 ∧ (r.randint lo hi).1 ≤ hi := by
  unfold Rng.randint Rng.next
  have hpos : (0 : ℤ) < hi - lo + 1 := by omega
  have hnn : 0 ≤ ((r.stream r.pos : ℤ)) % (hi - lo + 1) :=
    Int.emod_nonneg _ (by omega)
  have hlt : ((r.stream r.pos : ℤ)) % (hi - lo + 1) < hi - lo + 1 :=
    Int.emod_lt_of_pos _ hpos
  constructor
  · simp only
    omega
  · simp only
    omega

/-! ## C1: determinism -/

/-- C1: for every payload that passes validation, two calls of assess,
differing only in the wall-clock timestamp they observe, yield identical
`rul_estimate`, identical `decision_summary.recommended_primary_option_id`
and identical `estimated_impacts` in every recommendation card (the
timestamp is the only ambient input, so only `timestamp_utc` may differ);
the incentive pipeline observes no ambient input at all, so two calls on
the same payload and selected option are the same function application and
their responses, `request_id` included, are byte-identical. -/
theorem c1_determinism (R : ℕ → ℕ → ℕ) (now1 now2 : String) (P : Payload)
    (sel : String) (h : ValidPayload P) :
    rulOf (assessLogic R now1 P) = rulOf (assessLogic R now2 P)
      ∧ recommendedOf (assessLogic R now1 P) = recommendedOf (assessLogic R now2 P)
      ∧ impactsOf (assessLogic R now1 P) = impactsOf (assessLogic R now2 P)
      ∧ incentiveLogic R P sel = incentiveLogic R P sel :=
  ⟨rfl, rfl, rfl, rfl⟩

/-! ## C2: the RUL reference formulas -/

/-- C2 (amended): for every valid payload the rul_estimate is computed by
the reference formulas — `rul_months_min`, `rul_months_max` and the
confidence bucket exactly as the spec states them, the bucket and the
margin being driven by the unrounded clamp value — while the returned
`confidence_score` field is that clamp value rounded to two decimals. -/
theorem c2_rul_formulas (P : Payload) (h : ValidPayload P) :
    (computeRulAndConfidence P).1.rul_months_min = rulMinSpec P
      ∧ (computeRulAndConfidence P).1.rul_months_max = rulMaxSpec P
      ∧ (computeRulAndConfidence P).1.confidence = confidenceSpec P
      ∧ (computeRulAndConfidence P).2.1 = confidenceScoreSpec P
      ∧ (computeRulAndConfidence P).2.2 = rulPointSpec P
      ∧ (computeRulAndConfidence P).1.confidence_score
          = round2 (confidenceScoreSpec P) :=
  ⟨rfl, rfl, rfl, rfl, rfl, rfl⟩

/-- Witness for C2's amended theorem. -/
theorem c2_rul_formulas_witness :
    ValidPayload witnessPayload ∧
      ((computeRulAndConfidence witnessPayload).1.rul_months_min
          = rulMinSpec witnessPayload
        ∧ (computeRulAndConfidence witnessPayload).1.rul_months_max
            = rulMaxSpec witnessPayload
        ∧ (computeRulAndConfidence witnessPayload).1.confidence
            = confidenceSpec witnessPayload
        ∧ (computeRulAndConfidence witnessPayload).2.1
            = confidenceScoreSpec witnessPayload
        ∧ (computeRulAndConfidence witnessPayload).2.2
            = rulPointSpec witnessPayload
        ∧ (computeRulAndConfidence witnessPayload).1.confidence_score
            = round2 (confidenceScoreSpec witnessPayload)) :=
  ⟨by decide, c2_rul_formulas witnessPayload (by decide)⟩

/-- C2 counterexample: on the valid payload `cexPayload` (700 charge
cycles, everything else pristine) the unrounded score is 53/60 but the
returned `confidence_score` is the rounded 0.88, so the returned field does
not equal `clamp(1 - risk/5, 0.35, 0.9)` as the claim states. -/
theorem c2_rounding_counterexample :
    (computeRulAndConfidence cexPayload).1.confidence_score
      ≠ confidenceScoreSpec cexPayload := by
  have hcs : confidenceScoreSpec cexPayload = 53 / 60 := by
    unfold confidenceScoreSpec riskSpec cexPayload clamp
    rw [min_def, max_def]
    norm_num
  have heq : (computeRulAndConfidence cexPayload).1.confidence_score
      = round2 (confidenceScoreSpec cexPayload) := rfl
  rw [heq, hcs]
  unfold round2
  have hfl : (⌊(53 : ℚ) / 60 * 100 + 1 / 2⌋ : ℤ) = 88 := by
    rw [Int.floor_eq_iff]
    constructor <;> norm_num
  rw [hfl]
  norm_num

/-! ## C3: range invariants -/

theorem round2_01 {x : ℚ} (h0 : 0 ≤ x) (h1 : x ≤ 1) :
    0 ≤ round2 x ∧ round2 x ≤ 1 := by
  have hb := @round2_bounds x 0 100 (by push_cast; linarith) (by push_cast; linarith)
  constructor
  · have h2 := hb.1
    push_cast at h2
    linarith
  · have h2 := hb.2
    push_cast at h2
    linarith

theorem round2_3590 {x : ℚ} (h0 : 35 / 100 ≤ x) (h1 : x ≤ 9 / 10) :
    35 / 100 ≤ round2 x ∧ round2 x ≤ 9 / 10 := by
  have hb := @round2_bounds x 35 90 (by push_cast; linarith) (by push_cast; linarith)
  constructor
  · have h2 := hb.1
    push_cast at h2
    linarith
  · have h2 := hb.2
    push_cast at h2
    linarith

theorem confidenceScoreSpec_bounds (P : Payload) :
    35 / 100 ≤ confidenceScoreSpec P ∧ confidenceScoreSpec P ≤ 9 / 10 :=
  ⟨le_clamp _ _ _, clamp_le _ _ _ (by norm_num)⟩

theorem rulPointSpec_bounds (P : Payload) :
    1 ≤ rulPointSpec P ∧ rulPointSpec P ≤ 30 :=
  ⟨le_clamp _ _ _, clamp_le _ _ _ (by norm_num)⟩

theorem marginSpec_ge_two (P : Payload) : 2 ≤ marginSpec P := by
  have h := (confidenceScoreSpec_bounds P).2
  unfold marginSpec
  nlinarith

/-- The floor/ceil bounds behind the RUL window invariants. -/
theorem rul_window_bounds (P : Payload) :
    (computeRulAndConfidence P).1.rul_months_min
        ≤ (computeRulAndConfidence P).1.rul_months_max
      ∧ 1 ≤ (computeRulAndConfidence P).1.rul_months_min
      ∧ (computeRulAndConfidence P).1.rul_months_min ≤ 30
      ∧ 1 ≤ (computeRulAndConfidence P).1.rul_months_max
      ∧ (computeRulAndConfidence P).1.rul_months_max ≤ 30 := by
  have hmin : (computeRulAndConfidence P).1.rul_months_min
      = max 1 ⌊rulPointSpec P - marginSpec P⌋ := rfl
  have hmax : (computeRulAndConfidence P).1.rul_months_max
      = min 30 ⌈rulPointSpec P + marginSpec P⌉ := rfl
  have hrp := rulPointSpec_bounds P
  have hm := marginSpec_ge_two P
  have hfl28 : ⌊rulPointSpec P - marginSpec P⌋ ≤ 28 := by
    have hle : rulPointSpec P - marginSpec P ≤ 28 := by linarith [hrp.2]
    have hq : ((⌊rulPointSpec P - marginSpec P⌋ : ℤ) : ℚ) ≤ 28 :=
      le_trans (Int.floor_le _) hle
    exact_mod_cast hq
  have hc3 : (3 : ℤ) ≤ ⌈rulPointSpec P + marginSpec P⌉ := by
    have hge : (3 : ℚ) ≤ rulPointSpec P + marginSpec P := by linarith [hrp.1]
    have hq : (3 : ℚ) ≤ ((⌈rulPointSpec P + marginSpec P⌉ : ℤ) : ℚ) :=
      le_trans hge (Int.le_ceil _)
    exact_mod_cast hq
  have hfc : ⌊rulPointSpec P - marginSpec P⌋ ≤ ⌈rulPointSpec P + marginSpec P⌉ := by
    have hq : ((⌊rulPointSpec P - marginSpec P⌋ : ℤ) : ℚ)
        ≤ ((⌈rulPointSpec P + marginSpec P⌉ : ℤ) : ℚ) := by
      have h1 := Int.floor_le (rulPointSpec P - marginSpec P)
      have h2 := Int.le_ceil (rulPointSpec P + marginSpec P)
      linarith
    exact_mod_cast hq
  rw [hmin, hmax]
  omega

/-- The weights are nonnegative and sum to one for a valid payload. -/
theorem weights_sum_one {P : Payload} (h : ValidPayload P) :
    0 ≤ mapPriority P.user_preferences.budget_priority / totalWeight P
      ∧ 0 ≤ mapPriority P.user_preferences.sustainability_priority / totalWeight P
      ∧ 0 ≤ mapPriority P.user_preferences.performance_priority / totalWeight P
      ∧ mapPriority P.user_preferences.budget_priority / totalWeight P
          + mapPriority P.user_preferences.sustainability_priority / totalWeight P
          + mapPriority P.user_preferences.performance_priority / totalWeight P = 1 := by
  obtain ⟨-, -, -, -, -, -, -, -, -, hb, hs, hp⟩ := h
  have h1 := mapPriority_one_le hb
  have h2 := mapPriority_one_le hs
  have h3 := mapPriority_one_le hp
  have ht : 3 ≤ totalWeight P := by
    unfold totalWeight
    linarith
  have htpos : 0 < totalWeight P := by linarith
  refine ⟨div_nonneg (by linarith) htpos.le, div_nonneg (by linarith) htpos.le,
    div_nonneg (by linarith) htpos.le, ?_⟩
  rw [div_add_div_same, div_add_div_same]
  exact div_self (ne_of_gt htpos)

/-- A rounded convex combination of unit-interval scores stays in the unit
interval. -/
theorem overall_combo_01 {c s p wc ws wp : ℚ}
    (hc : 0 ≤ c ∧ c ≤ 1) (hs : 0 ≤ s ∧ s ≤ 1) (hp : 0 ≤ p ∧ p ≤ 1)
    (hwc : 0 ≤ wc) (hws : 0 ≤ ws) (hwp : 0 ≤ wp)
    (hsum : wc + ws + wp = 1) :
    0 ≤ round2 (c * wc + s * ws + p * wp)
      ∧ round2 (c * wc + s * ws + p * wp) ≤ 1 := by
  have h0 : 0 ≤ c * wc + s * ws + p * wp := by
    have := mul_nonneg hc.1 hwc
    have := mul_nonneg hs.1 hws
    have := mul_nonneg hp.1 hwp
    linarith
  have h1 : c * wc + s * ws + p * wp ≤ 1 := by
    have hcw : c * wc ≤ wc := by nlinarith [hc.2, hwc]
    have hsw : s * ws ≤ ws := by nlinarith [hs.2, hws]
    have hpw : p * wp ≤ wp := by nlinarith [hp.2, hwp]
    linarith
  exact round2_01 h0 h1

theorem clamp_mem_01 {v lo hi : ℚ} (h0 : 0 ≤ lo) (h1 : hi ≤ 1) (hlh : lo ≤ hi) :
    0 ≤ clamp v lo hi ∧ clamp v lo hi ≤ 1 :=
  ⟨le_trans h0 (le_clamp v lo hi), le_trans (clamp_le v lo hi hlh) h1⟩

/-- All three overall scores are in the unit interval for a valid
payload. -/
theorem overall_scores_01 {P : Payload} (h : ValidPayload P) :
    (0 ≤ (computeOptionScores P).repair_battery.overall_score
        ∧ (computeOptionScores P).repair_battery.overall_score ≤ 1)
      ∧ (0 ≤ (computeOptionScores P).refurb_buy.overall_score
          ∧ (computeOptionScores P).refurb_buy.overall_score ≤ 1)
      ∧ (0 ≤ (computeOptionScores P).tradein_new.overall_score
          ∧ (computeOptionScores P).tradein_new.overall_score ≤ 1) := by
  obtain ⟨hw1, hw2, hw3, hsum⟩ := weights_sum_one h
  refine ⟨overall_combo_01 ?_ ?_ ?_ hw1 hw2 hw3 hsum,
    overall_combo_01 ?_ ?_ ?_ hw1 hw2 hw3 hsum,
    overall_combo_01 ?_ ?_ ?_ hw1 hw2 hw3 hsum⟩
  · exact clamp_mem_01 (by norm_num) (by norm_num) (by norm_num)
  · exact clamp_mem_01 (by norm_num) (by norm_num) (by norm_num)
  · exact clamp_mem_01 (by norm_num) (by norm_num) (by norm_num)
  · exact clamp_mem_01 (by norm_num) (by norm_num) (by norm_num)
  · exact clamp_mem_01 (by norm_num) (by norm_num) (by norm_num)
  · exact clamp_mem_01 (by norm_num) (by norm_num) (by norm_num)
  · exact clamp_mem_01 (by norm_num) (by norm_num) (by norm_num)
  · exact clamp_mem_01 (by norm_num) (by norm_num) (by norm_num)
  · exact clamp_mem_01 (by norm_num) (by norm_num) (by norm_num)

/-- Accept and impact scores are clamped to the unit interval before
rounding, for every payload and generator. -/
theorem incentive_scores_01 (R : ℕ → ℕ → ℕ) (P : Payload) (sel : String) :
    0 ≤ (incentiveCore R P sel).accept_score
      ∧ (incentiveCore R P sel).accept_score ≤ 1
      ∧ 0 ≤ (incentiveCore R P sel).impact_score
      ∧ (incentiveCore R P sel).impact_score ≤ 1 := by
  refine ⟨(round2_clamp01 _).1, (round2_clamp01 _).2,
    (round2_clamp01 _).1, (round2_clamp01 _).2⟩

/-- C3: for every valid payload the returned RUL window satisfies
`rul_months_min ≤ rul_months_max` with both in [1,30]; the returned
`confidence_score` is in [0.35, 0.9]; every `overall_score` in the assess
response's recommendation cards is in [0,1]; and the incentive response's
`accept_score` and `impact_score` are in [0,1]. -/
theorem c3_range_invariants (R : ℕ → ℕ → ℕ) (now : String) (P : Payload)
    (sel : String) (h : ValidPayload P) :
    ((assessCore R now P).rul_estimate.rul_months_min
        ≤ (assessCore R now P).rul_estimate.rul_months_max)
      ∧ 1 ≤ (assessCore R now P).rul_estimate.rul_months_min
      ∧ (assessCore R now P).rul_estimate.rul_months_min ≤ 30
      ∧ 1 ≤ (assessCore R now P).rul_estimate.rul_months_max
      ∧ (assessCore R now P).rul_estimate.rul_months_max ≤ 30
      ∧ 35 / 100 ≤ (assessCore R now P).rul_estimate.confidence_score
      ∧ (assessCore R now P).rul_estimate.confidence_score ≤ 9 / 10
      ∧ (∀ c ∈ (assessCore R now P).recommendations,
          0 ≤ c.scores.overall_score ∧ c.scores.overall_score ≤ 1)
      ∧ 0 ≤ (incentiveCore R P sel).accept_score
      ∧ (incentiveCore R P sel).accept_score ≤ 1
      ∧ 0 ≤ (incentiveCore R P sel).impact_score
      ∧ (incentiveCore R P sel).impact_score ≤ 1 := by
  have hre : (assessCore R now P).rul_estimate = (computeRulAndConfidence P).1 := rfl
  have hw := rul_window_bounds P
  have hcs : (computeRulAndConfidence P).1.confidence_score
      = round2 (confidenceScoreSpec P) := rfl
  have hcsb := confidenceScoreSpec_bounds P
  have hcs2 := round2_3590 hcsb.1 hcsb.2
  have hov := overall_scores_01 h
  have hinc := incentive_scores_01 R P sel
  refine ⟨?_, ?_, ?_, ?_, ?_, ?_, ?_, ?_, hinc.1, hinc.2.1, hinc.2.2.1, hinc.2.2.2⟩
  · rw [hre]; exact hw.1
  · rw [hre]; exact hw.2.1
  · rw [hre]; exact hw.2.2.1
  · rw [hre]; exact hw.2.2.2.1
  · rw [hre]; exact hw.2.2.2.2
  · rw [hre, hcs]; exact hcs2.1
  · rw [hre, hcs]; exact hcs2.2
  · intro c hc
    have hrec : (assessCore R now P).recommendations
        = buildRecommendations P (computeOptionScores P)
            ((buildEstimatedImpacts (mkRng R (assessSeed P + 42))).1)
            (pickRecommended (computeOptionScores P)) := rfl
    rw [hrec] at hc
    unfold buildRecommendations at hc
    simp only [List.mem_cons, List.mem_singleton, List.not_mem_nil, or_false] at hc
    rcases hc with hc | hc | hc <;> subst hc
    · exact hov.1
    · exact hov.2.1
    · exact hov.2.2

/-- Witness for C3. -/
theorem c3_range_invariants_witness :
    ValidPayload witnessPayload ∧
      (((assessCore defaultGen "t" witnessPayload).rul_estimate.rul_months_min
          ≤ (assessCore defaultGen "t" witnessPayload).rul_estimate.rul_months_max)
        ∧ 1 ≤ (assessCore defaultGen "t" witnessPayload).rul_estimate.rul_months_min
        ∧ (assessCore defaultGen "t" witnessPayload).rul_estimate.rul_months_min ≤ 30
        ∧ 1 ≤ (assessCore defaultGen "t" witnessPayload).rul_estimate.rul_months_max
        ∧ (assessCore defaultGen "t" witnessPayload).rul_estimate.rul_months_max ≤ 30
        ∧ 35 / 100
            ≤ (assessCore defaultGen "t" witnessPayload).rul_estimate.confidence_score
        ∧ (assessCore defaultGen "t" witnessPayload).rul_estimate.confidence_score
            ≤ 9 / 10
        ∧ (∀ c ∈ (assessCore defaultGen "t" witnessPayload).recommendations,
            0 ≤ c.scores.overall_score ∧ c.scores.overall_score ≤ 1)
        ∧ 0 ≤ (incentiveCore defaultGen witnessPayload "tradein_new").accept_score
        ∧ (incentiveCore defaultGen witnessPayload "tradein_new").accept_score ≤ 1
        ∧ 0 ≤ (incentiveCore defaultGen witnessPayload "tradein_new").impact_score
        ∧ (incentiveCore defaultGen witnessPayload "tradein_new").impact_score ≤ 1) :=
  ⟨by decide,
   c3_range_invariants defaultGen "t" witnessPayload "tradein_new" (by decide)⟩

/-! ## C4: winner selection -/

theorem overallOf_repair (s : AllScores) :
    overallOf s "repair_battery" = s.repair_battery.overall_score := rfl

theorem overallOf_refurb (s : AllScores) :
    overallOf s "refurb_buy" = s.refurb_buy.overall_score := rfl

theorem overallOf_tradein (s : AllScores) :
    overallOf s "tradein_new" = s.tradein_new.overall_score := rfl

theorem orderIndex_refurb : orderIndex "refurb_buy" = 0 := rfl

theorem orderIndex_repair : orderIndex "repair_battery" = 1 := rfl

theorem orderIndex_tradein : orderIndex "tradein_new" = 2 := rfl

theorem tupleGt_refurb_repair (a b : ℚ) :
    tupleGt (b, (0 : ℤ)) (a, -1) ↔ a ≤ b := by
  unfold tupleGt
  constructor
  · rintro (h | ⟨h, -⟩)
    · exact le_of_lt h
    · exact le_of_eq h.symm
  · intro h
    rcases eq_or_lt_of_le h with h | h
    · exact Or.inr ⟨h.symm, by norm_num⟩
    · exact Or.inl h

theorem tupleGt_tradein (c x : ℚ) (i : ℤ) (hi : -2 < i) :
    tupleGt (c, (-2 : ℤ)) (x, i) ↔ x < c := by
  unfold tupleGt
  constructor
  · rintro (h | ⟨-, hlt⟩)
    · exact h
    · exact absurd hlt (by omega)
  · exact fun h => Or.inl h

/-- The two-step Python `max` of pickRecommended, unfolded into cases. -/
theorem pick_unfold (s : AllScores) :
    pickRecommended s =
      if tupleGt (s.refurb_buy.overall_score, (0 : ℤ))
          (s.repair_battery.overall_score, -1) then
        if tupleGt (s.tradein_new.overall_score, (-2 : ℤ))
            (s.refurb_buy.overall_score, 0) then "tradein_new"
        else "refurb_buy"
      else
        if tupleGt (s.tradein_new.overall_score, (-2 : ℤ))
            (s.repair_battery.overall_score, -1) then "tradein_new"
        else "repair_battery" := by
  unfold pickRecommended
  by_cases h1 : tupleGt (s.refurb_buy.overall_score, (0 : ℤ))
      (s.repair_battery.overall_score, -1) <;> simp [h1]

/-- Case analysis of the winner: the first maximal option in the key order
wins, so refurb beats repair on ties and trade-in wins only strictly. -/
theorem pick_cases (s : AllScores) :
    (pickRecommended s = "refurb_buy"
        ∧ s.repair_battery.overall_score ≤ s.refurb_buy.overall_score
        ∧ s.tradein_new.overall_score ≤ s.refurb_buy.overall_score)
      ∨ (pickRecommended s = "repair_battery"
          ∧ s.refurb_buy.overall_score < s.repair_battery.overall_score
          ∧ s.tradein_new.overall_score ≤ s.repair_battery.overall_score)
      ∨ (pickRecommended s = "tradein_new"
          ∧ s.repair_battery.overall_score < s.tradein_new.overall_score
          ∧ s.refurb_buy.overall_score < s.tradein_new.overall_score) := by
  rw [pick_unfold]
  by_cases h1 : tupleGt (s.refurb_buy.overall_score, (0 : ℤ))
      (s.repair_battery.overall_score, -1)
  · have hab : s.repair_battery.overall_score ≤ s.refurb_buy.overall_score :=
      (tupleGt_refurb_repair _ _).mp h1
    by_cases h2 : tupleGt (s.tradein_new.overall_score, (-2 : ℤ))
        (s.refurb_buy.overall_score, 0)
    · have hbc : s.refurb_buy.overall_score < s.tradein_new.overall_score :=
        (tupleGt_tradein _ _ 0 (by omega)).mp h2
      refine Or.inr (Or.inr ⟨by rw [if_pos h1, if_pos h2], ?_, hbc⟩)
      linarith
    · have hcb : ¬s.refurb_buy.overall_score < s.tradein_new.overall_score :=
        fun hx => h2 ((tupleGt_tradein _ _ 0 (by omega)).mpr hx)
      push_neg at hcb
      exact Or.inl ⟨by rw [if_pos h1, if_neg h2], hab, hcb⟩
  · have hba : s.refurb_buy.overall_score < s.repair_battery.overall_score := by
      by_contra hc
      push_neg at hc
      exact h1 ((tupleGt_refurb_repair _ _).mpr hc)
    by_cases h2 : tupleGt (s.tradein_new.overall_score, (-2 : ℤ))
        (s.repair_battery.overall_score, -1)
    · have hac : s.repair_battery.overall_score < s.tradein_new.overall_score :=
        (tupleGt_tradein _ _ (-1) (by omega)).mp h2
      refine Or.inr (Or.inr ⟨by rw [if_neg h1, if_pos h2], hac, ?_⟩)
      linarith
    · have hca : ¬s.repair_battery.overall_score < s.tradein_new.overall_score :=
        fun hx => h2 ((tupleGt_tradein _ _ (-1) (by omega)).mpr hx)
      push_neg at hca
      exact Or.inr (Or.inl ⟨by rw [if_neg h1, if_neg h2], hba, hca⟩)

/-- C4: the recommended primary option is `pickRecommended` of the computed
scores; its overall score is the maximum of the three; and whenever an
option ties with the winner on overall score, the winner stands no later in
the priority order `[refurb_buy, repair_battery, tradein_new]`. -/
theorem c4_winner_selection (R : ℕ → ℕ → ℕ) (now : String) (P : Payload)
    (h : ValidPayload P) :
    (assessCore R now P).decision_summary.recommended_primary_option_id
        = pickRecommended (computeOptionScores P)
      ∧ overallOf (computeOptionScores P) (pickRecommended (computeOptionScores P))
          = max (max ((computeOptionScores P).refurb_buy.overall_score)
                ((computeOptionScores P).repair_battery.overall_score))
              ((computeOptionScores P).tradein_new.overall_score)
      ∧ ((computeOptionScores P).refurb_buy.overall_score
            = overallOf (computeOptionScores P)
                (pickRecommended (computeOptionScores P))
          → orderIndex (pickRecommended (computeOptionScores P))
              ≤ orderIndex "refurb_buy")
      ∧ ((computeOptionScores P).repair_battery.overall_score
            = overallOf (computeOptionScores P)
                (pickRecommended (computeOptionScores P))
          → orderIndex (pickRecommended (computeOptionScores P))
              ≤ orderIndex "repair_battery")
      ∧ ((computeOptionScores P).tradein_new.overall_score
            = overallOf (computeOptionScores P)
                (pickRecommended (computeOptionScores P))
          → orderIndex (pickRecommended (computeOptionScores P))
              ≤ orderIndex "tradein_new") := by
  have hcase := pick_cases (computeOptionScores P)
  refine ⟨rfl, ?_, ?_, ?_, ?_⟩
  · rcases hcase with ⟨hw, h1, h2⟩ | ⟨hw, h1, h2⟩ | ⟨hw, h1, h2⟩ <;> rw [hw]
    · rw [overallOf_refurb, max_eq_left h1, max_eq_left h2]
    · rw [overallOf_repair, max_eq_right h1.le, max_eq_left h2]
    · rw [overallOf_tradein, max_eq_right (max_le h2.le h1.le)]
  · rcases hcase with ⟨hw, h1, h2⟩ | ⟨hw, h1, h2⟩ | ⟨hw, h1, h2⟩ <;> rw [hw] <;>
      intro hEq
    · exact le_refl _
    · rw [overallOf_repair] at hEq
      exact absurd hEq (ne_of_lt h1)
    · rw [overallOf_tradein] at hEq
      exact absurd hEq (ne_of_lt h2)
  · rcases hcase with ⟨hw, h1, h2⟩ | ⟨hw, h1, h2⟩ | ⟨hw, h1, h2⟩ <;> rw [hw] <;>
      intro hEq
    · rw [orderIndex_refurb, orderIndex_repair]
      norm_num
    · exact le_refl _
    · rw [overallOf_tradein] at hEq
      exact absurd hEq (ne_of_lt h1)
  · rcases hcase with ⟨hw, -, -⟩ | ⟨hw, -, -⟩ | ⟨hw, -, -⟩ <;> rw [hw] <;> intro hEq
    · rw [orderIndex_refurb, orderIndex_tradein]
      norm_num
    · rw [orderIndex_repair, orderIndex_tradein]
      norm_num
    · exact le_refl _

/-- Witness for C4. -/
theorem c4_winner_selection_witness :
    ValidPayload witnessPayload ∧
      ((assessCore defaultGen "t" witnessPayload).decision_summary.recommended_primary_option_id
          = pickRecommended (computeOptionScores witnessPayload)
        ∧ overallOf (computeOptionScores witnessPayload)
              (pickRecommended (computeOptionScores witnessPayload))
            = max (max ((computeOptionScores witnessPayload).refurb_buy.overall_score)
                  ((computeOptionScores witnessPayload).repair_battery.overall_score))
                ((computeOptionScores witnessPayload).tradein_new.overall_score)
        ∧ ((computeOptionScores witnessPayload).refurb_buy.overall_score
              = overallOf (computeOptionScores witnessPayload)
                  (pickRecommended (computeOptionScores witnessPayload))
            → orderIndex (pickRecommended (computeOptionScores witnessPayload))
                ≤ orderIndex "refurb_buy")
        ∧ ((computeOptionScores witnessPayload).repair_battery.overall_score
              = overallOf (computeOptionScores witnessPayload)
                  (pickRecommended (computeOptionScores witnessPayload))
            → orderIndex (pickRecommended (computeOptionScores witnessPayload))
                ≤ orderIndex "repair_battery")
        ∧ ((computeOptionScores witnessPayload).tradein_new.overall_score
              = overallOf (computeOptionScores witnessPayload)
                  (pickRecommended (computeOptionScores witnessPayload))
            → orderIndex (pickRecommended (computeOptionScores witnessPayload))
                ≤ orderIndex "tradein_new")) :=
  ⟨by decide, c4_winner_selection defaultGen "t" witnessPayload (by decide)⟩

/-! ## C5: key drivers -/

/-- C5: `key_drivers` names the first three entries of the (unique)
permutation of the five tagged contribution ratios that is sorted by
`driverLe`, i.e. descending by contribution with ties broken by the
original enumeration order; every entry left out is `driverLe`-below every
entry taken. -/
theorem c5_key_drivers (P : Payload) (h : ValidPayload P) :
    ∃ l : List (ℕ × ℚ),
      List.Perm (contribList P) l
        ∧ l.Sorted driverLe
        ∧ l.length = 5
        ∧ keyDrivers P = (l.take 3).map (fun p => driverName p.1)
        ∧ (∀ x ∈ l.take 3, ∀ y ∈ l.drop 3, driverLe x y) := by
  refine ⟨sortedContribs P,
    (List.perm_insertionSort driverLe (contribList P)).symm,
    List.sorted_insertionSort driverLe (contribList P), ?_, rfl, ?_⟩
  · rw [show sortedContribs P = List.insertionSort driverLe (contribList P) from rfl,
      (List.perm_insertionSort driverLe (contribList P)).length_eq]
    rfl
  · have hp : (sortedContribs P).Pairwise driverLe :=
      List.sorted_insertionSort driverLe (contribList P)
    have hsplit := List.take_append_drop 3 (sortedContribs P)
    rw [← hsplit] at hp
    exact fun x hx y hy => (List.pairwise_append.mp hp).2.2 x hx y hy

/-- Witness for C5. -/
theorem c5_key_drivers_witness :
    ValidPayload witnessPayload ∧
      (∃ l : List (ℕ × ℚ),
        List.Perm (contribList witnessPayload) l
          ∧ l.Sorted driverLe
          ∧ l.length = 5
          ∧ keyDrivers witnessPayload = (l.take 3).map (fun p => driverName p.1)
          ∧ (∀ x ∈ l.take 3, ∀ y ∈ l.drop 3, driverLe x y)) :=
  ⟨by decide, c5_key_drivers witnessPayload (by decide)⟩

/-! ## C6: the validator contract -/

theorem seqE_nil : seqE [] = .ok () := rfl

theorem seqE_ok_cons (c : Except PyErr Unit) (rest : List (Except PyErr Unit)) :
    seqE (c :: rest) = .ok () ↔ (c = .ok () ∧ seqE rest = .ok ()) := by
  cases c with
  | ok u =>
      cases u
      simp [seqE]
  | error e => simp [seqE]

theorem checkField_ok (o : JVal) (k : String) (p : JVal → Bool) (m : String) :
    checkField o k p m = .ok () ↔ fieldOkB o k p = true := by
  cases o <;> simp [checkField, fieldOkB]

theorem checkTop_ok (v : JVal) : checkTop v = .ok () ↔ topOkB v = true := by
  cases v <;> simp [checkTop, topOkB, and_assoc]

theorem checkTopInc_ok (v : JVal) : checkTopInc v = .ok () ↔ topOkB v = true := by
  cases v <;> simp [checkTopInc, topOkB, and_assoc]

/-- One documented check step agrees with one validator step, whatever the
rest of the walk produces. -/
theorem seqE_cons_outcome (o : JVal) (k : String) (p : JVal → Bool) (m : String)
    (rest : List (Except PyErr Unit)) (restOut : Option PyErr)
    (hrest : seqE rest = outcomeToExcept restOut) :
    seqE (checkField o k p m :: rest) = outcomeToExcept (checkSpec o k p m restOut) := by
  cases o with
  | jobj fields =>
      by_cases hp : p (assocD fields k) = true
      · simp [checkField, checkSpec, hp, seqE, hrest]
      · simp [checkField, checkSpec, hp, seqE, outcomeToExcept]
  | jnull => simp [checkField, checkSpec, seqE, outcomeToExcept]
  | jbool b => simp [checkField, checkSpec, seqE, outcomeToExcept]
  | jint n => simp [checkField, checkSpec, seqE, outcomeToExcept]
  | jfloat q => simp [checkField, checkSpec, seqE, outcomeToExcept]
  | jstr s => simp [checkField, checkSpec, seqE, outcomeToExcept]
  | jarr xs => simp [checkField, checkSpec, seqE, outcomeToExcept]

theorem checkTop_err (v : JVal) (h : topOkB v = false) :
    checkTop v = .error (.valueError topMsg) := by
  cases v <;> simp_all [checkTop, topOkB]

/-- The engine validator's result is exactly the documented first-offense
outcome, on every candidate payload. -/
theorem validateAssessJ_outcome (v : JVal) :
    validateAssessJ v = outcomeToExcept (specAssessOutcome v) := by
  simp only [validateAssessJ, specAssessOutcome]
  have h0 : seqE [] = outcomeToExcept none := rfl
  have h1 := seqE_cons_outcome (jGetD v "user_preferences") "prefers_financing"
    pyIsBool msgFinancing _ _ h0
  have h2 := seqE_cons_outcome (jGetD v "user_preferences") "performance_priority"
    isEnumPriority msgPerf _ _ h1
  have h3 := seqE_cons_outcome (jGetD v "user_preferences") "sustainability_priority"
    isEnumPriority msgSust _ _ h2
  have h4 := seqE_cons_outcome (jGetD v "user_preferences") "budget_priority"
    isEnumPriority msgBudget _ _ h3
  have h5 := seqE_cons_outcome (jGetD v "signals") "repair_history_count"
    nonnegInt msgRepairs _ _ h4
  have h6 := seqE_cons_outcome (jGetD v "signals") "frame_drop_rate"
    frameRangeOk msgFrameRange _ _ h5
  have h7 := seqE_cons_outcome (jGetD v "signals") "frame_drop_rate"
    pyIsNum msgFrameFloat _ _ h6
  have h8 := seqE_cons_outcome (jGetD v "signals") "charge_cycles"
    nonnegInt msgCycles _ _ h7
  have h9 := seqE_cons_outcome (jGetD v "signals") "battery_health_percent"
    batteryRangeOk msgBatteryRange _ _ h8
  have h10 := seqE_cons_outcome (jGetD v "signals") "battery_health_percent"
    pyIsInt msgBatteryInt _ _ h9
  have h11 := seqE_cons_outcome (jGetD v "device") "age_months"
    nonnegInt msgAge _ _ h10
  have h12 := seqE_cons_outcome (jGetD v "device") "model"
    isNonemptyStr msgModel _ _ h11
  have h13 := seqE_cons_outcome (jGetD v "device") "brand"
    isNonemptyStr msgBrand _ _ h12
  by_cases ht : topOkB v = true
  · rw [if_pos ht, (checkTop_ok v).mpr ht]
    simpa [seqE] using h13
  · have ht2 : topOkB v = false := by simpa using ht
    rw [if_neg ht, checkTop_err v ht2]
    simp [seqE, outcomeToExcept]

/-- The incentive validator's result is exactly the documented
first-offense outcome, on every candidate payload. -/
theorem validateIncJ_outcome (v : JVal) :
    validateIncJ v = outcomeToExcept (specIncOutcome v) := by
  simp only [validateIncJ, specIncOutcome]
  have h0 : seqE [] = outcomeToExcept none := rfl
  have h1 := seqE_cons_outcome (jGetD v "user_preferences") "prefers_financing"
    pyIsBool msgFinancing _ _ h0
  have h2 := seqE_cons_outcome (jGetD v "user_preferences") "performance_priority"
    isEnumPriority msgPerf _ _ h1
  have h3 := seqE_cons_outcome (jGetD v "user_preferences") "sustainability_priority"
    isEnumPriority msgSust _ _ h2
  have h4 := seqE_cons_outcome (jGetD v "user_preferences") "budget_priority"
    isEnumPriority msgBudget _ _ h3
  have h5 := seqE_cons_outcome (jGetD v "signals") "repair_history_count"
    nonnegInt msgRepairs _ _ h4
  have h6 := seqE_cons_outcome (jGetD v "signals") "frame_drop_rate"
    frameRangeOk msgFrameRange _ _ h5
  have h7 := seqE_cons_outcome (jGetD v "signals") "frame_drop_rate"
    pyIsNum msgFrameFloat _ _ h6
  have h8 := seqE_cons_outcome (jGetD v "signals") "charge_cycles"
    nonnegInt msgCycles _ _ h7
  cases v with
  | jobj fields =>
      by_cases hks : (hasKey fields "device" && hasKey fields "signals"
          && hasKey fields "user_preferences") = true
      · rw [show checkTopInc (.jobj fields) = .ok () from by simp [checkTopInc, hks]]
        simpa [seqE, hks] using h8
      · rw [show checkTopInc (.jobj fields) = .error (.valueError topMsg) from by
            simp [checkTopInc, hks]]
        simp [seqE, hks, outcomeToExcept]
  | jnull => simp [checkTopInc, seqE, outcomeToExcept]
  | jbool b => simp [checkTopInc, seqE, outcomeToExcept]
  | jint n => simp [checkTopInc, seqE, outcomeToExcept]
  | jfloat q => simp [checkTopInc, seqE, outcomeToExcept]
  | jstr s => simp [checkTopInc, seqE, outcomeToExcept]
  | jarr xs => simp [checkTopInc, seqE, outcomeToExcept]

/-- C6 (amended): each validator returns normally exactly on the payloads
whose required fields are present with correct types and in-range values
(Python typing: booleans count as ints); every failure is exactly the
first offense in the documented check order — a `ValueError` naming that
field when the member holding it is a dict (and for the top-level shape
requirement), but an `AttributeError` from `.get` when the member holding
the first offending field is not a dict; and any validation failure aborts
the pipeline before any scoring, propagating the error unchanged. -/
theorem c6_validator_contract (v : JVal) :
    (validateAssessJ v = .ok () ↔ specValidAssess v = true)
      ∧ (validateIncJ v = .ok () ↔ specValidInc v = true)
      ∧ validateAssessJ v = outcomeToExcept (specAssessOutcome v)
      ∧ validateIncJ v = outcomeToExcept (specIncOutcome v)
      ∧ (∀ e R now, validateAssessJ v = .error e → assessJ R now v = .error e)
      ∧ (∀ e R sel, validateIncJ v = .error e → incentiveJ R v sel = .error e) := by
  refine ⟨?_, ?_, validateAssessJ_outcome v, validateIncJ_outcome v, ?_, ?_⟩
  · unfold validateAssessJ specValidAssess
    simp only [seqE_ok_cons, seqE_nil, checkField_ok, checkTop_ok,
      Bool.and_eq_true, and_true]
    tauto
  · unfold validateIncJ specValidInc
    simp only [seqE_ok_cons, seqE_nil, checkField_ok, checkTopInc_ok,
      Bool.and_eq_true, and_true]
    tauto
  · intro e R now hval
    simp [assessJ, hval]
  · intro e R sel hval
    simp [incentiveJ, hval]

/-- C6 counterexample: on `badDeviceJ` (its `device` member is the int 5)
validation fails with an `AttributeError`, not a `ValueError` naming a
field, refuting the claim that every rejection is a validation error. -/
theorem c6_attribute_error_counterexample :
    validateAssessJ badDeviceJ = .error (.attributeError attrGetMsg)
      ∧ specValidAssess badDeviceJ = false := by
  constructor <;> rfl

/-- Witness for C6: the abort conjunct applied at `badDeviceJ`. -/
theorem c6_validator_contract_witness :
    assessJ defaultGen "t" badDeviceJ = .error (.attributeError attrGetMsg) :=
  (c6_validator_contract badDeviceJ).2.2.2.2.1 (.attributeError attrGetMsg)
    defaultGen "t" rfl

/-! ## C7: seed derivation and request ids -/

theorem compressBlock_bounded (hv : Hash8) (block : List ℕ) :
    (compressBlock hv block).a < M32 ∧ (compressBlock hv block).b < M32
      ∧ (compressBlock hv block).c < M32 ∧ (compressBlock hv block).d < M32
      ∧ (compressBlock hv block).e < M32 ∧ (compressBlock hv block).f < M32
      ∧ (compressBlock hv block).g < M32 ∧ (compressBlock hv block).h < M32 := by
  unfold compressBlock
  refine ⟨?_, ?_, ?_, ?_, ?_, ?_, ?_, ?_⟩ <;>
    exact Nat.mod_lt _ (by norm_num [M32])

theorem foldl_compress_bounded (blocks : List (List ℕ)) (hv : Hash8)
    (h : hv.a < M32 ∧ hv.b < M32 ∧ hv.c < M32 ∧ hv.d < M32 ∧ hv.e < M32
      ∧ hv.f < M32 ∧ hv.g < M32 ∧ hv.h < M32) :
    (blocks.foldl compressBlock hv).a < M32
      ∧ (blocks.foldl compressBlock hv).b < M32
      ∧ (blocks.foldl compressBlock hv).c < M32
      ∧ (blocks.foldl compressBlock hv).d < M32
      ∧ (blocks.foldl compressBlock hv).e < M32
      ∧ (blocks.foldl compressBlock hv).f < M32
      ∧ (blocks.foldl compressBlock hv).g < M32
      ∧ (blocks.foldl compressBlock hv).h < M32 := by
  induction blocks generalizing hv with
  | nil => exact h
  | cons b rest ih => exact ih (compressBlock hv b) (compressBlock_bounded hv b)

theorem sha256Words_bounded (s : String) : ∀ w ∈ sha256Words s, w < M32 := by
  intro w hw
  unfold sha256Words at hw
  have hb := foldl_compress_bounded
    (chunksGo ((padMessage (utf8Bytes s)).length / 64) (padMessage (utf8Bytes s)))
    initH (by norm_num [initH, M32])
  simp only [List.mem_cons, List.not_mem_nil, or_false] at hw
  rcases hw with h | h | h | h | h | h | h | h <;> subst h
  · exact hb.1
  · exact hb.2.1
  · exact hb.2.2.1
  · exact hb.2.2.2.1
  · exact hb.2.2.2.2.1
  · exact hb.2.2.2.2.2.1
  · exact hb.2.2.2.2.2.2.1
  · exact hb.2.2.2.2.2.2.2

theorem hexVal_hexChar (d : ℕ) (h : d < 16) : hexVal (hexChar d) = d := by
  interval_cases d <;> rfl

theorem hexChar_mem (d : ℕ) (h : d < 16) : hexChar d ∈ lowercaseHexDigits := by
  unfold lowercaseHexDigits
  exact List.mem_map.mpr ⟨d, List.mem_range.mpr h, rfl⟩

theorem hex8_length (w : ℕ) : (hex8 w).length = 8 := rfl

theorem hexValue_hex8 (w : ℕ) (h : w < M32) : hexValue (hex8 w) = w := by
  unfold hexValue hex8
  simp only [List.foldl]
  rw [hexVal_hexChar _ (Nat.mod_lt _ (by norm_num)),
    hexVal_hexChar _ (Nat.mod_lt _ (by norm_num)),
    hexVal_hexChar _ (Nat.mod_lt _ (by norm_num)),
    hexVal_hexChar _ (Nat.mod_lt _ (by norm_num)),
    hexVal_hexChar _ (Nat.mod_lt _ (by norm_num)),
    hexVal_hexChar _ (Nat.mod_lt _ (by norm_num)),
    hexVal_hexChar _ (Nat.mod_lt _ (by norm_num)),
    hexVal_hexChar _ (Nat.mod_lt _ (by norm_num))]
  unfold M32 at h
  omega

theorem hex8_mem_lower (w : ℕ) : ∀ c ∈ hex8 w, c ∈ lowercaseHexDigits := by
  intro c hc
  unfold hex8 at hc
  simp only [List.mem_cons, List.not_mem_nil, or_false] at hc
  rcases hc with h | h | h | h | h | h | h | h <;> subst h <;>
    exact hexChar_mem _ (Nat.mod_lt _ (by norm_num))

theorem take8_words (ws : List ℕ) (w : ℕ) :
    ((List.map hex8 (w :: ws)).flatten).take 8 = hex8 w := by
  simp only [List.map_cons, List.flatten_cons]
  rw [show (8 : ℕ) = (hex8 w).length from rfl, List.take_left]

/-- The first eight hex digits of a digest are exactly the hex encoding of
its first 32-bit word. -/
theorem sha_take8 (s : String) :
    ∃ w rest, sha256Words s = w :: rest
      ∧ (sha256HexChars s).take 8 = hex8 w ∧ w < M32 := by
  obtain ⟨w, rest, hws⟩ : ∃ w rest, sha256Words s = w :: rest := ⟨_, _, rfl⟩
  refine ⟨w, rest, hws, ?_, ?_⟩
  · unfold sha256HexChars
    rw [hws]
    exact take8_words rest w
  · exact sha256Words_bounded s w (by rw [hws]; exact List.mem_cons_self _ _)

theorem assessSeed_lt (P : Payload) : assessSeed P < M32 := by
  obtain ⟨w, rest, hws, htake, hlt⟩ := sha_take8 (canonPayload P)
  unfold assessSeed
  rw [htake, hexValue_hex8 w hlt]
  exact hlt

theorem incentiveSeed_lt (P : Payload) (sel : String) :
    incentiveSeed P sel < M32 := by
  obtain ⟨w, rest, hws, htake, hlt⟩ := sha_take8 (canonIncentive P sel)
  unfold incentiveSeed
  rw [htake, hexValue_hex8 w hlt]
  exact hlt

/-- C7: the seeds are the integer value of the first 8 hex characters of
the SHA-256 hex digest of the canonical JSON of the payload (assess) and of
the payload-plus-selected-option structure (incentive); each seed fits in
32 bits; each request id is the literal prefix req_ followed by the seed as
8 zero-padded lowercase hex digits (with suffix _INC for incentive); and
the pseudo-random draws are taken from the generator constructed at
`seed + 42` while the request id is formatted from the plain seed. -/
theorem c7_seed_and_request_id (P : Payload) (sel : String) (R : ℕ → ℕ → ℕ)
    (now : String) :
    assessSeed P = hexValue ((sha256HexChars (canonPayload P)).take 8)
      ∧ incentiveSeed P sel
          = hexValue ((sha256HexChars (canonIncentive P sel)).take 8)
      ∧ assessSeed P < 2 ^ 32
      ∧ incentiveSeed P sel < 2 ^ 32
      ∧ (assessCore R now P).request_id = "req_" ++ String.mk (hex8 (assessSeed P))
      ∧ (incentiveCore R P sel).request_id
          = "req_" ++ String.mk (hex8 (incentiveSeed P sel)) ++ "_INC"
      ∧ (hex8 (assessSeed P)).length = 8
      ∧ hexValue (hex8 (assessSeed P)) = assessSeed P
      ∧ (∀ c ∈ hex8 (assessSeed P), c ∈ lowercaseHexDigits)
      ∧ (hex8 (incentiveSeed P sel)).length = 8
      ∧ hexValue (hex8 (incentiveSeed P sel)) = incentiveSeed P sel
      ∧ (∀ c ∈ hex8 (incentiveSeed P sel), c ∈ lowercaseHexDigits)
      ∧ (assessCore R now P).recommendations.map (fun c => c.estimated_impacts)
          = [((buildEstimatedImpacts (mkRng R (assessSeed P + 42))).1).repair_battery,
             ((buildEstimatedImpacts (mkRng R (assessSeed P + 42))).1).refurb_buy,
             ((buildEstimatedImpacts (mkRng R (assessSeed P + 42))).1).tradein_new] := by
  refine ⟨rfl, rfl, ?_, ?_, rfl, rfl, rfl, ?_, hex8_mem_lower _, rfl, ?_,
    hex8_mem_lower _, rfl⟩
  · have := assessSeed_lt P
    unfold M32 at this
    norm_num
    exact this
  · have := incentiveSeed_lt P sel
    unfold M32 at this
    norm_num
    exact this
  · exact hexValue_hex8 _ (assessSeed_lt P)
  · exact hexValue_hex8 _ (incentiveSeed_lt P sel)

/-! ## C8, C9, C10: incentive totality, package shape, selected option -/

theorem notes_fallback_nonempty (l : List String) (fb : String) :
    1 ≤ (if l.isEmpty then [fb] else l).length := by
  by_cases h : l.isEmpty
  · simp [h]
  · rw [if_neg h]
    have : l ≠ [] := by
      intro hnil
      rw [hnil] at h
      exact h rfl
    have := List.length_pos.mpr this
    omega

theorem inc_notes_len (R : ℕ → ℕ → ℕ) (P : Payload) (sel : String) :
    1 ≤ (incentiveCore R P sel).notes.length := by
  obtain ⟨l, fb, hl⟩ : ∃ l fb,
      (incentiveCore R P sel).notes = if l.isEmpty then [fb] else l := ⟨_, _, rfl⟩
  rw [hl]
  exact notes_fallback_nonempty l fb

theorem inc_package_ids (R : ℕ → ℕ → ℕ) (P : Payload) (sel : String) :
    (incentiveCore R P sel).packages.map (fun p => p.package_id)
      = ["cash", "carbon_points", "hybrid"] := rfl

/-- None of the four contract assertions of incentive_logic can fire. -/
theorem incentiveAssertErr_core (R : ℕ → ℕ → ℕ) (P : Payload) (sel : String) :
    incentiveAssertErr (incentiveCore R P sel) = none := by
  have hks : listSetEq incentiveResponseKeys incentiveExpectedKeys = true := by
    decide
  have hids : listSetEq
      ((incentiveCore R P sel).packages.map (fun p => p.package_id))
      ["cash", "carbon_points", "hybrid"] = true := by
    rw [inc_package_ids]
    decide
  have hsc := incentive_scores_01 R P sel
  have hn := inc_notes_len R P sel
  unfold incentiveAssertErr
  simp [hks, hids, hsc.1, hsc.2.1, hsc.2.2.1, hsc.2.2.2, hn]

theorem incentiveLogic_ok (R : ℕ → ℕ → ℕ) (P : Payload) (sel : String)
    (hsel : sel ≠ "") :
    incentiveLogic R P sel = .ok (incentiveCore R P sel) := by
  unfold incentiveLogic
  rw [if_neg hsel]
  simp only []
  rw [incentiveAssertErr_core]

/-- C9: once validation has passed and the selected option id is a
non-empty string, both pipelines run to completion and return a result (the
embedded key-set, package-id, score-range and notes assertions all hold),
and the preference-weight normalization divides by a total weight of at
least 3; every other denominator in the formulas is a nonzero numeric
literal. -/
theorem c9_totality (R : ℕ → ℕ → ℕ) (now : String) (P : Payload)
    (sel : String) (h : ValidPayload P) (hsel : sel ≠ "") :
    (∃ ra, assessLogic R now P = .ok ra)
      ∧ (∃ ri, incentiveLogic R P sel = .ok ri)
      ∧ 3 ≤ totalWeight P := by
  refine ⟨⟨assessCore R now P, ?_⟩,
    ⟨incentiveCore R P sel, incentiveLogic_ok R P sel hsel⟩,
    totalWeight_ge_three h⟩
  unfold assessLogic
  rw [if_pos (by decide)]

/-- Witness for C9. -/
theorem c9_totality_witness :
    ValidPayload witnessPayload ∧ "tradein_new" ≠ "" ∧
      ((∃ ra, assessLogic defaultGen "t" witnessPayload = .ok ra)
        ∧ (∃ ri, incentiveLogic defaultGen witnessPayload "tradein_new" = .ok ri)
        ∧ 3 ≤ totalWeight witnessPayload) :=
  ⟨by decide, by decide,
   c9_totality defaultGen "t" witnessPayload "tradein_new" (by decide) (by decide)⟩

/-- C8: the incentive response has exactly the three packages cash,
carbon_points and hybrid; cash has a null carbon_points and an integer
cash amount clamped into [7000, 18000]; carbon_points has a null cash
amount and an integer point amount in [6000, 24000]; hybrid has both, in
[7000, 13000] and [5000, 12000]. -/
theorem c8_package_shape (R : ℕ → ℕ → ℕ) (P : Payload) (sel : String)
    (h : ValidPayload P) (hsel : sel ≠ "") :
    ∃ r, incentiveLogic R P sel = .ok r
      ∧ r.packages.map (fun p => p.package_id)
          = ["cash", "carbon_points", "hybrid"]
      ∧ ∃ p1 p2 p3, r.packages = [p1, p2, p3]
          ∧ p1.package_id = "cash" ∧ p1.value.carbon_points = none
          ∧ (∃ a, p1.value.cash_amount_try = some a ∧ 7000 ≤ a ∧ a ≤ 18000)
          ∧ p2.package_id = "carbon_points" ∧ p2.value.cash_amount_try = none
          ∧ (∃ b, p2.value.carbon_points = some b ∧ 6000 ≤ b ∧ b ≤ 24000)
          ∧ p3.package_id = "hybrid"
          ∧ (∃ hc, p3.value.cash_amount_try = some hc ∧ 7000 ≤ hc ∧ hc ≤ 13000)
          ∧ (∃ hp, p3.value.carbon_points = some hp ∧ 5000 ≤ hp ∧ hp ≤ 12000) := by
  refine ⟨incentiveCore R P sel, incentiveLogic_ok R P sel hsel,
    inc_package_ids R P sel,
    _, _, _, rfl, rfl, rfl,
    ⟨_, rfl, le_clampZ _ _ _, clampZ_le _ _ _ (by norm_num)⟩,
    rfl, rfl,
    ⟨_, rfl, le_clampZ _ _ _, clampZ_le _ _ _ (by norm_num)⟩,
    rfl,
    ⟨_, rfl, le_clampZ _ _ _, clampZ_le _ _ _ (by norm_num)⟩,
    ⟨_, rfl, le_clampZ _ _ _, clampZ_le _ _ _ (by norm_num)⟩⟩

/-- Witness for C8. -/
theorem c8_package_shape_witness :
    ValidPayload witnessPayload ∧ "tradein_new" ≠ "" ∧
      (∃ r, incentiveLogic defaultGen witnessPayload "tradein_new" = .ok r
        ∧ r.packages.map (fun p => p.package_id)
            = ["cash", "carbon_points", "hybrid"]
        ∧ ∃ p1 p2 p3, r.packages = [p1, p2, p3]
            ∧ p1.package_id = "cash" ∧ p1.value.carbon_points = none
            ∧ (∃ a, p1.value.cash_amount_try = some a ∧ 7000 ≤ a ∧ a ≤ 18000)
            ∧ p2.package_id = "carbon_points" ∧ p2.value.cash_amount_try = none
            ∧ (∃ b, p2.value.carbon_points = some b ∧ 6000 ≤ b ∧ b ≤ 24000)
            ∧ p3.package_id = "hybrid"
            ∧ (∃ hc, p3.value.cash_amount_try = some hc ∧ 7000 ≤ hc ∧ hc ≤ 13000)
            ∧ (∃ hp, p3.value.carbon_points = some hp ∧ 5000 ≤ hp ∧ hp ≤ 12000)) :=
  ⟨by decide, by decide,
   c8_package_shape defaultGen witnessPayload "tradein_new" (by decide) (by decide)⟩

theorem incJSel_of_nonstr (R : ℕ → ℕ → ℕ) (P : Payload) (sel : JVal)
    (hns : ∀ s, sel ≠ JVal.jstr s) :
    incentiveLogicJSel R P sel = .error (.valueError selMsg) := by
  cases sel <;> first | rfl | exact absurd rfl (hns _)

/-- C10: the incentive pipeline accepts any non-empty string as
selected_option_id (it is not restricted to the three option ids), echoes
it unchanged in the response while folding it into the seed, and — for a
valid payload — raises exactly when the selected option id is not a string
or is the empty string. -/
theorem c10_selected_option (R : ℕ → ℕ → ℕ) (P : Payload) (sel : JVal)
    (h : ValidPayload P) :
    ((∃ e, incentiveLogicJSel R P sel = .error e)
        ↔ (∀ s, sel ≠ .jstr s) ∨ sel = .jstr "")
      ∧ (∀ s, sel = .jstr s → s ≠ "" →
          ∃ r, incentiveLogicJSel R P sel = .ok r
            ∧ r.selected_option_id = s
            ∧ r.request_id
                = "req_" ++ String.mk (hex8 (incentiveSeed P s)) ++ "_INC") := by
  constructor
  · constructor
    · rintro ⟨e, he⟩
      cases sel with
      | jstr s =>
          by_cases hs : s = ""
          · exact Or.inr (by rw [hs])
          · exfalso
            rw [show incentiveLogicJSel R P (.jstr s) = incentiveLogic R P s
                from rfl, incentiveLogic_ok R P s hs] at he
            exact Except.noConfusion he
      | jnull => exact Or.inl fun s hc => JVal.noConfusion hc
      | jbool b => exact Or.inl fun s hc => JVal.noConfusion hc
      | jint n => exact Or.inl fun s hc => JVal.noConfusion hc
      | jfloat q => exact Or.inl fun s hc => JVal.noConfusion hc
      | jarr xs => exact Or.inl fun s hc => JVal.noConfusion hc
      | jobj fields => exact Or.inl fun s hc => JVal.noConfusion hc
    · rintro (hns | hempty)
      · exact ⟨.valueError selMsg, incJSel_of_nonstr R P sel hns⟩
      · refine ⟨.valueError selMsg, ?_⟩
        rw [hempty]
        rw [show incentiveLogicJSel R P (.jstr "") = incentiveLogic R P ""
            from rfl]
        unfold incentiveLogic
        rw [if_pos rfl]
  · intro s hsel hs
    subst hsel
    refine ⟨incentiveCore R P s, ?_, rfl, rfl⟩
    rw [show incentiveLogicJSel R P (.jstr s) = incentiveLogic R P s from rfl]
    exact incentiveLogic_ok R P s hs

/-- Witness for C10: an arbitrary string that is none of the three option
ids is accepted and echoed. -/
theorem c10_selected_option_witness :
    ValidPayload witnessPayload ∧
      (∃ r, incentiveLogicJSel defaultGen witnessPayload (.jstr "anything") = .ok r
        ∧ r.selected_option_id = "anything"
        ∧ r.request_id
            = "req_"
              ++ String.mk (hex8 (incentiveSeed witnessPayload "anything"))
              ++ "_INC") :=
  ⟨by decide,
   (c10_selected_option defaultGen witnessPayload (.jstr "anything")
      (by decide)).2 "anything" rfl (by decide)⟩

/-- Witness for C1 at the witness payload, two distinct timestamps. -/
theorem c1_determinism_witness :
    ValidPayload witnessPayload ∧
      (rulOf (assessLogic defaultGen "t1" witnessPayload)
          = rulOf (assessLogic defaultGen "t2" witnessPayload)
        ∧ recommendedOf (assessLogic defaultGen "t1" witnessPayload)
            = recommendedOf (assessLogic defaultGen "t2" witnessPayload)
        ∧ impactsOf (assessLogic defaultGen "t1" witnessPayload)
            = impactsOf (assessLogic defaultGen "t2" witnessPayload)
        ∧ incentiveLogic defaultGen witnessPayload "tradein_new"
            = incentiveLogic defaultGen witnessPayload "tradein_new") :=
  ⟨by decide,
   c1_determinism defaultGen "t1" "t2" witnessPayload "tradein_new" (by decide)⟩

end TwinCycle
